import Mathlib

/-!
# DF ExtraButtons: a shallow embedding of the userscript

The userscript `DF_ExtraButtons_v1.0.1.user.js` replaces the navigation bar of a
web game.  This file embeds its pure and state-passing core:

* JavaScript values, truthiness, `??`, strict equality (structural on primitives);
* the string primitives the script calls (`replace`, `includes`, `split`) and a
  small backtracking matcher for the three regular expressions it uses;
* the persisted key/value store (`GM_getValue` / `GM_setValue`);
* the URL helpers, the trade-zone resolver, the clan cache, the button tables and
  the part of the renderer that decides the class lists;
* the CITY click listener, the redirect on load with its interval, the listeners of
  the clan dropdown, the hiding of the original navigation and `syncClanButton`;
* `init` with its two guards and the `DOMContentLoaded` handler, and the trade-zone
  detection of version 1.0.0 for comparison.

Strings are lists of code units (`List Char`); a module-level `let` becomes a field
of `Script`, the host page (`unsafeWindow`, `window.location`) is the read-only
record `Host`.
-/

namespace DFExtraButtons

/-! ## JavaScript values -/

/-- A JavaScript string, as the list of its code units. -/
abbrev JSString := List Char

/-- Primitive JavaScript values (numbers restricted to integers). -/
inductive JSPrim where
  | undefined
  | null
  | bool (b : Bool)
  | num (n : Int)
  | str (s : JSString)
  deriving DecidableEq

/-- Values that can sit in the persisted store: a primitive, or the object
`{ id, name, userId }` written by `saveClanCache`. -/
inductive JSVal where
  | prim (p : JSPrim)
  | clanRec (id name userId : JSPrim)
  deriving DecidableEq

/-- Truthiness of a primitive (`if (x)`, `!x`, `x && y`). -/
def JSPrim.truthy : JSPrim → Bool
  | .undefined => false
  | .null => false
  | .bool b => b
  | .num n => n != 0
  | .str s => !s.isEmpty

/-- Truthiness of a value: every object is truthy. -/
def JSVal.truthy : JSVal → Bool
  | .prim p => p.truthy
  | .clanRec _ _ _ => true

/-- Nullish test: `undefined` or `null`. -/
def JSPrim.nullish : JSPrim → Bool
  | .undefined => true
  | .null => true
  | _ => false

/-- The operator `a ?? b`. -/
def nullishCoalesce (a b : JSPrim) : JSPrim :=
  if a.nullish then b else a

/-- Property read `v.id`; a primitive has no such property. -/
def JSVal.id : JSVal → JSPrim
  | .clanRec i _ _ => i
  | .prim _ => .undefined

/-- Property read `v.name`. -/
def JSVal.name : JSVal → JSPrim
  | .clanRec _ n _ => n
  | .prim _ => .undefined

/-- Property read `v.userId`. -/
def JSVal.userId : JSVal → JSPrim
  | .clanRec _ _ u => u
  | .prim _ => .undefined

/-! ## String primitives -/

/-- The method `s.replace(pat, rep)` with a string pattern: the first occurrence of
`pat` (scanning from the left) is replaced, the rest is kept. The replacement used by
the script is `''`, which has no `$` escapes. -/
def replaceFirst (pat rep : JSString) : JSString → JSString
  | [] => if pat.isPrefixOf [] then rep else []
  | c :: t =>
    if pat.isPrefixOf (c :: t) then rep ++ (c :: t).drop pat.length
    else c :: replaceFirst pat rep t

/-- The method `s.includes(sub)` for a string argument. -/
def includes : JSString → JSString → Bool
  | [], sub => sub.isPrefixOf []
  | c :: t, sub => sub.isPrefixOf (c :: t) || includes t sub

/-- The method `s.split(sep)` for a separator of one code unit. -/
def split (sep : Char) : JSString → List JSString
  | [] => [[]]
  | c :: t =>
    if c = sep then [] :: split sep t
    else
      match split sep t with
      | [] => [[c]]
      | seg :: segs => (c :: seg) :: segs

/-- The call `s.includes(x)` where `x` may be `undefined` (an index past the end of an
array): the argument is converted to a string first, `undefined` giving `"undefined"`. -/
def includesArg (s : JSString) : Option JSString → Bool
  | some sub => includes s sub
  | none => includes s "undefined".toList

/-! ## Regular expressions

The script uses `/^index\.php(\?)?$/`, `/DFSTATS_df_clan_id=([^&]+)/` and
`/DFSTATS_df_clan_name=([^&]+)/`.  `Re` is the syntax these need, `Re.run` a
backtracking matcher in continuation-passing style. -/

/-- Regular expression syntax. -/
inductive Re where
  | bol
  | eol
  | chr (c : Char)
  | plusNot (c : Char)
  | opt (r : Re)
  | grp (r : Re)
  | cat (r₁ r₂ : Re)

/-- Matcher state: index reached, input left, content of capture group 1. -/
structure MState where
  pos : Nat
  rest : JSString
  cap : Option JSString
  deriving DecidableEq

/-- Greedy `[^c]*` followed by the continuation: the longest run is tried first. -/
def manyNot (c : Char) (k : MState → Option MState) (cap : Option JSString) :
    Nat → JSString → Option MState
  | pos, [] => k ⟨pos, [], cap⟩
  | pos, x :: t =>
    if x = c then k ⟨pos, x :: t, cap⟩
    else (manyNot c k cap (pos + 1) t).orElse fun _ => k ⟨pos, x :: t, cap⟩

/-- Match `r` at state `s`, then the continuation `k`; `none` when every alternative
fails. -/
def Re.run : Re → (MState → Option MState) → MState → Option MState
  | .bol, k, s => if s.pos = 0 then k s else none
  | .eol, k, s => if s.rest = [] then k s else none
  | .chr c, k, s =>
    match s.rest with
    | [] => none
    | x :: t => if x = c then k ⟨s.pos + 1, t, s.cap⟩ else none
  | .plusNot c, k, s =>
    match s.rest with
    | [] => none
    | x :: t => if x = c then none else manyNot c k s.cap (s.pos + 1) t
  | .opt r, k, s => (r.run k s).orElse fun _ => k s
  | .grp r, k, s => r.run (fun e => k ⟨e.pos, e.rest, some (s.rest.take (e.pos - s.pos))⟩) s
  | .cat r₁ r₂, k, s => r₁.run (r₂.run k) s

/-- Try the start indices `i`, `i + 1`, ... in turn. -/
def Re.execFrom (r : Re) : Nat → JSString → Option MState
  | i, [] => r.run some ⟨i, [], none⟩
  | i, c :: t => (r.run some ⟨i, c :: t, none⟩).orElse fun _ => r.execFrom (i + 1) t

/-- First match of a regular expression without flags. -/
def Re.exec (r : Re) (s : JSString) : Option MState :=
  r.execFrom 0 s

/-- The method `re.test(s)`. -/
def Re.test (r : Re) (s : JSString) : Bool :=
  (r.exec s).isSome

/-- The expression `s.match(re)?.[1]`: capture group 1 of the first match. -/
def matchGroup1 (r : Re) (s : JSString) : Option JSString :=
  (r.exec s).bind fun m => m.cap

/-- The literal characters of `lit`, followed by `r`. -/
def Re.lit (lit : JSString) (r : Re) : Re :=
  lit.foldr (fun c acc => .cat (.chr c) acc) r

/-- The regular expression `/^index\.php(\?)?$/`. -/
def homeRe : Re :=
  .cat .bol (Re.lit "index.php".toList (.cat (.opt (.grp (.chr '?'))) .eol))

/-- The regular expression `/DFSTATS_df_clan_id=([^&]+)/`. -/
def clanIdRe : Re :=
  Re.lit "DFSTATS_df_clan_id=".toList (.grp (.plusNot '&'))

/-- The regular expression `/DFSTATS_df_clan_name=([^&]+)/`. -/
def clanNameRe : Re :=
  Re.lit "DFSTATS_df_clan_name=".toList (.grp (.plusNot '&'))

/-! ## Host page and persisted store -/

/-- The object `unsafeWindow.userVars`, with the three fields the script reads. -/
structure UserVars where
  DFSTATS_id_member : JSPrim
  DFSTATS_df_tradezone : JSPrim
  df_tradezone : JSPrim
  deriving DecidableEq

/-- What the script reads from the page: `userVars` (`none` when it is not defined),
`window.location.href`, and the result of `extractLogoutHref` (`none` for `null`). -/
structure Host where
  userVars : Option UserVars
  href : JSString
  logoutHref : Option JSString
  deriving DecidableEq

/-- The expression `unsafeWindow.userVars?.DFSTATS_id_member`. -/
def Host.idMember (h : Host) : JSPrim :=
  match h.userVars with
  | none => .undefined
  | some uv => uv.DFSTATS_id_member

/-- The expression `userVars?.DFSTATS_df_tradezone`. -/
def Host.statsTradezone (h : Host) : JSPrim :=
  match h.userVars with
  | none => .undefined
  | some uv => uv.DFSTATS_df_tradezone

/-- The expression `userVars?.df_tradezone`. -/
def Host.tradezone (h : Host) : JSPrim :=
  match h.userVars with
  | none => .undefined
  | some uv => uv.df_tradezone

/-- The keys of the persisted store. -/
inductive Key where
  | tradeZone
  | dfbm_clan
  | dfbm_redirectToCity
  deriving DecidableEq

/-- The persisted store: one slot per key, `none` while the key was never written. -/
structure Store where
  tradeZone : Option JSVal
  dfbm_clan : Option JSVal
  dfbm_redirectToCity : Option JSVal
  deriving DecidableEq

/-- Raw slot of a key. -/
def Store.slot (st : Store) : Key → Option JSVal
  | .tradeZone => st.tradeZone
  | .dfbm_clan => st.dfbm_clan
  | .dfbm_redirectToCity => st.dfbm_redirectToCity

/-- The call `GM_getValue(key, dflt)`. -/
def GM_getValue (st : Store) (k : Key) (dflt : JSVal) : JSVal :=
  (st.slot k).getD dflt

/-- The call `GM_setValue(key, v)`. -/
def GM_setValue (st : Store) (k : Key) (v : JSVal) : Store :=
  match k with
  | .tradeZone => { st with tradeZone := some v }
  | .dfbm_clan => { st with dfbm_clan := some v }
  | .dfbm_redirectToCity => { st with dfbm_redirectToCity := some v }

/-! ## Script state -/

/-- The base URL constant. -/
def BASE_URL : JSString := "https://fairview.deadfrontier.com/onlinezombiemmo/".toList

/-- The sentinel clan id. -/
def CLAN_ID_DEFAULT : JSString := "-1".toList

/-- The mutable state: the store and the two module-level variables. -/
structure Script where
  store : Store
  clanId : JSPrim
  clanName : JSPrim
  deriving DecidableEq

/-- State at script start, over a given store: `clanId = '-1'`, `clanName = ''`. -/
def Script.start (st : Store) : Script :=
  ⟨st, .str CLAN_ID_DEFAULT, .str []⟩

/-! ## Clan cache -/

/-- The function `loadCachedClan`. -/
def loadCachedClan (h : Host) (w : Script) : Script :=
  let cached := GM_getValue w.store .dfbm_clan (.prim .null)
  if !cached.truthy then w
  else
    let currentUserId := h.idMember
    if currentUserId.truthy && cached.userId.truthy && cached.userId != currentUserId then
      { w with store := GM_setValue w.store .dfbm_clan (.prim .null) }
    else
      { w with
        clanId := nullishCoalesce cached.id (.str CLAN_ID_DEFAULT)
        clanName := nullishCoalesce cached.name (.str []) }

/-- The function `saveClanCache`. -/
def saveClanCache (h : Host) (w : Script) : Script :=
  let userId := nullishCoalesce h.idMember .null
  { w with store := GM_setValue w.store .dfbm_clan (.clanRec w.clanId w.clanName userId) }

/-- The function `hasClan`. -/
def hasClan (w : Script) : Bool :=
  w.clanId != .str CLAN_ID_DEFAULT && w.clanName != .str []

/-- The function `fetchClanData`, given the text `html` of the fetched response: the new
state and the value the promise resolves to. -/
def fetchClanData (h : Host) (html : JSString) (w : Script) : Script × Bool :=
  let previousId := w.clanId
  let previousName := w.clanName
  let clanId := JSPrim.str ((matchGroup1 clanIdRe html).getD CLAN_ID_DEFAULT)
  let clanName := JSPrim.str ((matchGroup1 clanNameRe html).getD [])
  let w₁ := saveClanCache h { w with clanId := clanId, clanName := clanName }
  let changed := clanId != previousId || clanName != previousName
  (w₁, changed)

/-! ## URL helpers -/

/-- The function `getBasePath`. -/
def getBasePath (h : Host) : JSString :=
  replaceFirst BASE_URL [] h.href

/-- The function `isHomePage`, applied to a path. -/
def isHomePage (path : JSString) : Bool :=
  path == [] || path == "/".toList || homeRe.test path

/-- The function `isActive`; `none` is the `null` href. -/
def isActive (h : Host) (href : Option JSString) : Bool :=
  match href with
  | none => false
  | some hr =>
    if hr.isEmpty then false
    else
      let path := getBasePath h
      if hr == "index.php".toList then isHomePage path
      else if includes hr "action=".toList then includesArg path ((split '?' hr)[1]?)
      else path == hr

/-! ## Trade zone -/

/-- The function `resolveTradeZone`: the new state and the returned zone. -/
def resolveTradeZone (h : Host) (w : Script) : Script × JSVal :=
  let tradeZone := GM_getValue w.store .tradeZone (.prim .null)
  let freshZone := nullishCoalesce h.statsTradezone h.tradezone
  if freshZone.truthy then
    ({ w with store := GM_setValue w.store .tradeZone (.prim freshZone) }, .prim freshZone)
  else (w, tradeZone)

/-- The function `isSpecialZone`. -/
def isSpecialZone (zone : JSVal) : Bool :=
  zone == .prim (.str "21".toList) || zone == .prim (.str "22".toList)

/-! ## Button tables -/

/-- A button descriptor of the tables. `disabled` is `none` when the object literal
has no such property; a flag that is only tested for truth is `false` when absent. -/
structure Btn where
  label : JSString
  href : Option JSString
  disabled : Option Bool
  hasClanDropdown : Bool
  isCity : Bool
  external : Bool
  hasDropdown : Bool
  tooltip : Option JSString
  icon : Bool
  isLogout : Bool
  deriving DecidableEq

/-- A descriptor `{ label, href }`. -/
def Btn.link (label href : String) : Btn :=
  ⟨label.toList, some href.toList, none, false, false, false, false, none, false, false⟩

/-- A descriptor `{ label, href, disabled }`. -/
def Btn.gated (label href : String) (disabled : Bool) : Btn :=
  ⟨label.toList, some href.toList, some disabled, false, false, false, false, none, false, false⟩

/-- A descriptor `{ label, href, tooltip, icon: true }`. -/
def Btn.iconLink (label href tooltip : String) : Btn :=
  ⟨label.toList, some href.toList, none, false, false, false, false, some tooltip.toList,
    true, false⟩

/-- The table `CLAN_LINKS` (label, href). -/
def CLAN_LINKS : List (JSString × JSString) :=
  [("STORAGE / BANK".toList, "index.php?page=89".toList),
   ("MACHINES".toList, "index.php?page=93".toList)]

/-- The function `buildLeftButtons`. -/
def buildLeftButtons (specialZone inClan : Bool) : List Btn :=
  [Btn.link "OUTPOST" "index.php",
   Btn.link "MARKETPLACE" "index.php?page=35",
   Btn.link "BANK" "index.php?page=15",
   Btn.link "STORAGE" "index.php?page=50"]
  ++ (if inClan then
        [⟨"CLAN".toList, none, some (!specialZone), true, false, false, false, none, false,
          false⟩]
      else [])
  ++ [Btn.gated "THE YARD" "index.php?page=24" (!specialZone),
      Btn.link "CRAFTING" "index.php?page=59",
      Btn.gated "VENDOR" "index.php?page=84" (!specialZone),
      ⟨"CITY".toList, none, none, false, true, false, false, none, false, false⟩]

/-- The function `buildRightButtons`. -/
def buildRightButtons (logoutHref : Option JSString) : List Btn :=
  [Btn.link "FORUM" "index.php?action=forum",
   ⟨"WIKI".toList, some "https://deadfrontier.fandom.com/wiki/Dead_Frontier_Wiki".toList, none,
     false, false, true, true, none, false, false⟩,
   Btn.iconLink "$" "index.php?page=28" "CREDIT SHOP",
   Btn.iconLink "?" "index.php?page=53" "HELP",
   ⟨"✕".toList, logoutHref, none, false, false, false, false, some "LOGOUT".toList, true,
     true⟩]

/-- Truth of `btn.disabled` (an absent property is falsy). -/
def Btn.isDisabled (b : Btn) : Bool :=
  b.disabled.getD false

/-! ## Renderer: the elements and their class lists -/

/-- What the renderer decides for one entry of the bar: the class list of the outer
element (anchor or wrapper), the class list of its button, the text of the button, the
`href` attribute of the anchor and the `disabled` property of the button. -/
structure Elem where
  classes : List JSString
  buttonClasses : List JSString
  text : JSString
  href : Option JSString
  disabled : Bool
  deriving DecidableEq

/-- The function `makeAnchor`, as far as classes and `href` go: the class list is
`['dfbm-btn', ...classes]`, the attribute `href` is set only for a truthy `href`. -/
def makeAnchor (href : Option JSString) (classes : List JSString) (text : JSString)
    (disabled : Bool) : Elem :=
  let attr := match href with
    | some hr => if hr.isEmpty then none else some hr
    | none => none
  ⟨"dfbm-btn".toList :: classes, [], text, attr, disabled⟩

/-- The function `buildClanWrap`. -/
def buildClanWrap (h : Host) (btn : Btn) : Elem :=
  let wrapClasses := "dfbm-clan-wrap".toList ::
    (if btn.isDisabled then ["dfbm-clan-disabled".toList] else [])
  let isClanActive := CLAN_LINKS.any fun item => isActive h (some item.2)
  let btnClasses := if isClanActive && !btn.isDisabled then ["dfbm-clan-active".toList] else []
  ⟨wrapClasses, btnClasses, btn.label, none, btn.isDisabled⟩

/-- The function `buildWikiWrap`. -/
def buildWikiWrap (btn : Btn) : Elem :=
  ⟨["dfbm-wiki-wrap".toList], [], btn.label, btn.href, false⟩

/-- The function `buildCityButton`. -/
def buildCityButton : Elem :=
  makeAnchor none ["dfbm-city".toList] "CITY›".toList false

/-- The function `buildLogoutAnchor`. -/
def buildLogoutAnchor (btn : Btn) : Elem :=
  makeAnchor none ["dfbm-icon".toList, "dfbm-logout".toList] btn.label false

/-- One iteration of the loop of `populateLeftButtons`. -/
def renderLeft (h : Host) (btn : Btn) : Elem :=
  if btn.hasClanDropdown then buildClanWrap h btn
  else if btn.isCity then buildCityButton
  else
    let classes :=
      (if btn.isDisabled then ["dfbm-disabled".toList] else [])
      ++ (if !btn.isDisabled && isActive h btn.href then ["dfbm-active".toList] else [])
    makeAnchor btn.href classes btn.label (btn.isDisabled || false)

/-- One iteration of the loop of `populateRightButtons`. -/
def renderRight (h : Host) (btn : Btn) : Elem :=
  if btn.hasDropdown then buildWikiWrap btn
  else if btn.isLogout then buildLogoutAnchor btn
  else
    let classes :=
      (if btn.icon then ["dfbm-icon".toList] else [])
      ++ (if isActive h btn.href then ["dfbm-active".toList] else [])
    makeAnchor btn.href classes btn.label false

/-- The function `populateLeftButtons`: the children appended to the container. -/
def populateLeftButtons (h : Host) (buttons : List Btn) : List Elem :=
  buttons.map (renderLeft h)

/-- The function `populateRightButtons`. -/
def populateRightButtons (h : Host) (buttons : List Btn) : List Elem :=
  buttons.map (renderRight h)

/-- An element is rendered active when it carries `dfbm-active`, or, for the clan
entry, when its button carries `dfbm-clan-active`. -/
def Elem.active (e : Elem) : Bool :=
  e.classes.contains "dfbm-active".toList || e.buttonClasses.contains "dfbm-clan-active".toList

/-! ## The model built by `init` -/

/-- The steps of `init` that build the button model, run once its two guards have
passed: `loadCachedClan`, `resolveTradeZone`, `isSpecialZone`, `hasClan`,
`buildLeftButtons`, `buildRightButtons`. Gives the state and the two tables. -/
def initModel (h : Host) (w : Script) : Script × List Btn × List Btn :=
  let w₁ := loadCachedClan h w
  let r := resolveTradeZone h w₁
  let specialZone := isSpecialZone r.2
  let inClan := hasClan r.1
  (r.1, buildLeftButtons specialZone inClan, buildRightButtons h.logoutHref)

/-- Trade zone detection of version 1.0.0 (`DF_ExtraButtons.user.js`, lines 50 to 60):
two truthiness tests in sequence. -/
def resolveTradeZoneV100 (h : Host) (w : Script) : Script × JSVal :=
  let tradeZone := GM_getValue w.store .tradeZone (.prim .null)
  if h.statsTradezone.truthy then
    ({ w with store := GM_setValue w.store .tradeZone (.prim h.statsTradezone) },
      .prim h.statsTradezone)
  else if h.tradezone.truthy then
    ({ w with store := GM_setValue w.store .tradeZone (.prim h.tradezone) },
      .prim h.tradezone)
  else (w, tradeZone)

/-! ## City button and redirect on load -/

/-- What a timer callback does when it fires: `unsafeWindow.doPageChange(a, b, c)` or
`window.location.href = url`. -/
inductive Action where
  | pageChange (a b : Int) (c : Bool)
  | navigate (url : JSString)
  deriving DecidableEq

/-- A pending `setTimeout`: its delay in milliseconds and its callback. -/
structure Timeout where
  delay : Nat
  action : Action
  deriving DecidableEq

/-- Effects of one click on the CITY button: the new state, the sound played (if the
page offers `playSound`) and the timeout set. -/
structure ClickResult where
  script : Script
  sound : Option JSString
  timeout : Timeout
  deriving DecidableEq

/-- The click listener of `buildCityButton`; `hasPlaySound` and `canPageChange` say
whether `unsafeWindow.playSound` and `unsafeWindow.doPageChange` are defined at the
click. -/
def cityClick (h : Host) (hasPlaySound canPageChange : Bool) (w : Script) : ClickResult :=
  let sound := if hasPlaySound then some "outpost".toList else none
  if isHomePage (getBasePath h) && canPageChange then
    ⟨w, sound, ⟨1000, .pageChange 21 1 false⟩⟩
  else
    ⟨{ w with store := GM_setValue w.store .dfbm_redirectToCity (.prim (.bool true)) }, sound,
      ⟨1000, .navigate (BASE_URL ++ "index.php".toList)⟩⟩

/-- The page while it lives: the script state, whether the interval set by
`handleCityRedirect` is active, and the calls of `unsafeWindow.doPageChange` made so
far (oldest first). -/
structure Page where
  script : Script
  polling : Bool
  pageChanges : List (Int × Int × Bool)
  deriving DecidableEq

/-- A freshly loaded page: no interval, no call made. -/
def Page.load (w : Script) : Page :=
  ⟨w, false, []⟩

/-- The function `handleCityRedirect`. -/
def handleCityRedirect (h : Host) (p : Page) : Page :=
  if !(GM_getValue p.script.store .dfbm_redirectToCity (.prim (.bool false))).truthy
      || !isHomePage (getBasePath h) then p
  else
    ⟨{ p.script with
        store := GM_setValue p.script.store .dfbm_redirectToCity (.prim (.bool false)) },
      true, p.pageChanges⟩

/-- One period (200 ms) of the interval: its callback runs only while the interval is
active; `canPageChange` says whether `unsafeWindow.doPageChange` is defined then. -/
def pollTick (canPageChange : Bool) (p : Page) : Page :=
  if p.polling then
    if canPageChange then ⟨p.script, false, p.pageChanges ++ [(21, 1, false)]⟩
    else p
  else p

/-- A sequence of periods, given the availability of `doPageChange` at each. -/
def runTicks : List Bool → Page → Page
  | [], p => p
  | a :: rest, p => runTicks rest (pollTick a p)

/-! ## Clan dropdown -/

/-- The method `classList.remove(c)`. -/
def classListRemove (c : JSString) (cl : List JSString) : List JSString :=
  cl.filter fun x => x != c

/-- The method `classList.toggle(c)`. -/
def classListToggle (c : JSString) (cl : List JSString) : List JSString :=
  if cl.contains c then classListRemove c cl else cl ++ [c]

/-- Events on the page, seen from one clan wrapper: a click on its button (whose
listener stops propagation), a click that bubbles up to `document`, anything else
(pointer moves, key presses, clicks stopped before `document`). -/
inductive ClanEvent where
  | clickButton
  | clickDocument
  | other
  deriving DecidableEq

/-- The listeners `buildClanWrap` attaches, acting on the class list of the wrapper.
None is attached when the entry is built disabled. -/
def clanWrapStep (disabled : Bool) (classes : List JSString) : ClanEvent → List JSString
  | .clickButton =>
    if disabled then classes else classListToggle "dfbm-clan-open".toList classes
  | .clickDocument =>
    if disabled then classes else classListRemove "dfbm-clan-open".toList classes
  | .other => classes

/-- A sequence of events. -/
def clanWrapRun (disabled : Bool) : List ClanEvent → List JSString → List JSString
  | [], classes => classes
  | ev :: rest, classes => clanWrapRun disabled rest (clanWrapStep disabled classes ev)

/-- The dropdown is open when the wrapper carries `dfbm-clan-open`. -/
def clanIsOpen (classes : List JSString) : Bool :=
  classes.contains "dfbm-clan-open".toList

/-! ## Hiding the original navigation -/

/-- Inline style of an element: the text last assigned through `style.cssText`, and the
value assigned through `style.overflow` since then. -/
structure InlineStyle where
  cssText : JSString
  overflow : Option JSString
  deriving DecidableEq

/-- An element: `id`, `tagName`, whether it is `document.body`, and its inline style. -/
structure Node where
  id : JSString
  tagName : JSString
  isBody : Bool
  style : InlineStyle
  deriving DecidableEq

/-- The original navigation element and its chain of ancestors, parent first. -/
structure NavTree where
  nav : Node
  ancestors : List Node
  deriving DecidableEq

/-- The assignment `el.style.overflow = 'visible'`. -/
def setOverflowVisible (n : Node) : Node :=
  { n with style := { n.style with overflow := some "visible".toList } }

/-- The text assigned to `navEl.style.cssText`: the seven declarations joined by `;`. -/
def HIDE_CSS : JSString :=
  ("display:none !important;visibility:hidden !important;opacity:0 !important;" ++
   "height:0 !important;overflow:hidden !important;position:absolute !important;" ++
   "pointer-events:none !important").toList

/-- The function `hideOriginalNav`. -/
def hideOriginalNav (t : NavTree) : NavTree :=
  let nav := { t.nav with style := ⟨HIDE_CSS, none⟩ }
  match t.ancestors with
  | [] => ⟨nav, []⟩
  | navParent :: up =>
    if navParent.id != "sidebar".toList && navParent.tagName != "BODY".toList then
      ⟨nav, setOverflowVisible navParent :: up⟩
    else ⟨nav, navParent :: up⟩

/-- The body of the loop of `fixOverflowAncestors` for one element; `computed` stands
for `window.getComputedStyle`, giving `overflow`, `overflowX` and `overflowY`. -/
def fixOverflowStep (computed : Node → JSString × JSString × JSString) (el : Node) : Node :=
  let cs := computed el
  if [cs.1, cs.2.1, cs.2.2].contains "hidden".toList then setOverflowVisible el else el

/-- The function `fixOverflowAncestors` on the chain that starts at `startEl`: the
loop runs while `el` is an element other than `document.body`. -/
def fixOverflowAncestors (computed : Node → JSString × JSString × JSString) :
    List Node → List Node
  | [] => []
  | el :: up =>
    if el.isBody then el :: up
    else fixOverflowStep computed el :: fixOverflowAncestors computed up

/-- The two calls of `init`: `hideOriginalNav(navEl)`, then `fixOverflowAncestors` from
the parent of the inserted bar, which is the parent of `navEl`. -/
def hideNav (computed : Node → JSString × JSString × JSString) (t : NavTree) : NavTree :=
  let t₁ := hideOriginalNav t
  ⟨t₁.nav, fixOverflowAncestors computed t₁.ancestors⟩

/-! ## Clan button sync -/

/-- The selector `.dfbm-clan-wrap`. -/
def isClanWrap (e : Elem) : Bool :=
  e.classes.contains "dfbm-clan-wrap".toList

/-- The test of `syncClanButton` for the STORAGE anchor: an element `.dfbm-btn` whose
button has the text `STORAGE`. -/
def isStorageBtn (e : Elem) : Bool :=
  e.classes.contains "dfbm-btn".toList && e.text == "STORAGE".toList

/-- Insert `x` after the first element satisfying `p` (`storageBtn.after(wrap)`), at
the end when there is none (`leftDiv.appendChild(wrap)`). -/
def insertAfterFirst {α : Type} (p : α → Bool) (x : α) : List α → List α
  | [] => [x]
  | a :: t => if p a then a :: x :: t else a :: insertAfterFirst p x t

/-- The function `syncClanButton`, on the children of `#dfbm-left`. -/
def syncClanButton (h : Host) (w : Script) (clanChanged : Bool) (leftDiv : List Elem) :
    List Elem :=
  let existingWrap := leftDiv.find? isClanWrap
  if !clanChanged && existingWrap.isSome && hasClan w then leftDiv
  else if !clanChanged && !existingWrap.isSome && !hasClan w then leftDiv
  else
    let leftDiv₁ := if existingWrap.isSome then leftDiv.eraseP isClanWrap else leftDiv
    if !hasClan w then leftDiv₁
    else
      let tradeZone := GM_getValue w.store .tradeZone (.prim .null)
      let clanDisabled := !isSpecialZone tradeZone
      let wrap := buildClanWrap h
        ⟨"CLAN".toList, none, some clanDisabled, false, false, false, false, none, false,
          false⟩
      insertAfterFirst isStorageBtn wrap leftDiv₁

/-! ## Main init and bootstrap -/

/-- What `init` reads from the document besides the host page: whether `#sidebar`
exists, and the name/value pairs of `new URLSearchParams(window.location.search)`. -/
structure Doc where
  hasSidebar : Bool
  params : List (JSString × JSString)
  deriving DecidableEq

/-- The method `params.get(name)`: the value of the first pair with that name, `none` for
`null`. -/
def searchGet (params : List (JSString × JSString)) (name : JSString) : Option JSString :=
  (params.find? fun kv => kv.1 == name).map fun kv => kv.2

/-- The function `isLoginPage`. -/
def isLoginPage (d : Doc) : Bool :=
  searchGet d.params "page".toList == some "1".toList ||
    searchGet d.params "action".toList == some "login".toList

/-- The page during one load: the state of `Page`, the bars `#dfbm-bar` mounted so far
(left and right group of each, oldest first), the number of `style` elements appended by
`init`, the original navigation (`none` when `#outpostnavigationheaders` is missing),
whether `replaceBackground` was run, and a counter of the calls of `init`. -/
structure PageRun where
  page : Page
  bars : List (List Elem × List Elem)
  styles : Nat
  nav : Option NavTree
  backgrounds : Bool
  initRuns : Nat
  deriving DecidableEq

/-- A page load before the handler runs, over a script state and a document. -/
def PageRun.load (w : Script) (nav : Option NavTree) : PageRun :=
  ⟨Page.load w, [], 0, nav, false, 0⟩

/-- The function `init`. The bar is inserted, and the ancestors are walked from the
parent of the bar, only when the original navigation exists. -/
def init (computed : Node → JSString × JSString × JSString) (h : Host) (d : Doc)
    (s : PageRun) : PageRun :=
  let s₀ := { s with initRuns := s.initRuns + 1 }
  if !d.hasSidebar then s₀
  else if isLoginPage d then s₀
  else
    let m := initModel h s.page.script
    let leftDiv := populateLeftButtons h m.2.1
    let rightDiv := populateRightButtons h m.2.2
    let page₁ : Page := ⟨m.1, s.page.polling, s.page.pageChanges⟩
    match s.nav with
    | some navEl =>
      ⟨handleCityRedirect h page₁, s.bars ++ [(leftDiv, rightDiv)], s.styles + 2,
        some (hideNav computed navEl), true, s.initRuns + 1⟩
    | none =>
      ⟨handleCityRedirect h page₁, s.bars, s.styles + 2, none, true, s.initRuns + 1⟩

/-- How the background fetch of `fetchClanData` ends. -/
inductive FetchOutcome where
  | resolved (html : JSString)
  | rejected
  deriving DecidableEq

/-- The two statements after `init()` in the `try` block, for a resolved fetch:
`fetchClanData`, then `syncClanButton` on `#dfbm-left`, the left group of the first bar
(the function returns at once when there is none). -/
def refreshClan (h : Host) (html : JSString) (s : PageRun) : PageRun :=
  let r := fetchClanData h html s.page.script
  let page₁ : Page := ⟨r.1, s.page.polling, s.page.pageChanges⟩
  match s.bars with
  | [] => { s with page := page₁ }
  | bar :: rest =>
    { s with page := page₁, bars := (syncClanButton h r.1 r.2 bar.1, bar.2) :: rest }

/-- The `DOMContentLoaded` handler. `sidebarFound` and `navFound` say whether the two
`waitForElement` promises resolve (otherwise they reject after the timeout); a rejection
of `Promise.all` or of the fetch is caught, and the `catch` block calls `init`. -/
def onDOMContentLoaded (computed : Node → JSString × JSString × JSString) (h : Host)
    (d : Doc) (sidebarFound navFound : Bool) (f : FetchOutcome) (s : PageRun) : PageRun :=
  if sidebarFound && navFound then
    let s₁ := init computed h d s
    match f with
    | .resolved html => refreshClan h html s₁
    | .rejected => init computed h d s₁
  else init computed h d s

/-! ## Sample inputs -/

/-- A location whose base path is `index.php?page=35`. -/
def marketHost : Host :=
  ⟨none, BASE_URL ++ "index.php?page=35".toList, none⟩

/-- The targets of the tables that `isActive` compares by exact equality: the `page=`
targets of the left and right tables and of `CLAN_LINKS`. -/
def plainTargets : List JSString :=
  ["index.php?page=35".toList, "index.php?page=15".toList, "index.php?page=50".toList,
   "index.php?page=89".toList, "index.php?page=93".toList, "index.php?page=24".toList,
   "index.php?page=59".toList, "index.php?page=84".toList, "index.php?page=28".toList,
   "index.php?page=53".toList]

/-! # Theorems -/

/-! ## Lemmas on the string primitives -/

theorem replaceFirst_append (pat rep p : JSString) :
    replaceFirst pat rep (pat ++ p) = rep ++ p := by
  cases hs : pat ++ p with
  | nil =>
    have h1 : pat = [] := (List.append_eq_nil.mp hs).1
    have h2 : p = [] := (List.append_eq_nil.mp hs).2
    subst h1 h2
    simp [replaceFirst]
  | cons c t =>
    have hp : pat.isPrefixOf (c :: t) = true := by
      rw [← hs]; simp
    simp only [replaceFirst, hp, if_true]
    rw [← hs, List.drop_left]

theorem includes_iff (s sub : JSString) : includes s sub = true ↔ sub <:+: s := by
  induction s with
  | nil => simp [includes]
  | cons c t ih =>
    simp only [includes, Bool.or_eq_true, ih, List.isPrefixOf_iff_prefix]
    exact List.infix_cons_iff.symm

/-! ## Lemmas on the matcher -/

theorem run_lit (lit : JSString) (r : Re) (k : MState → Option MState) (s : MState) :
    (Re.lit lit r).run k s =
      if lit.isPrefixOf s.rest then r.run k ⟨s.pos + lit.length, s.rest.drop lit.length, s.cap⟩
      else none := by
  induction lit generalizing s with
  | nil => cases s; simp [Re.lit]
  | cons c l ih =>
    have hl : Re.lit (c :: l) r = .cat (.chr c) (Re.lit l r) := rfl
    rw [hl]
    obtain ⟨pos, rest, cap⟩ := s
    cases rest with
    | nil => simp [Re.run]
    | cons x t =>
      by_cases hx : x = c
      · subst hx
        simp [Re.run, ih, Nat.add_assoc, Nat.add_comm 1]
      · have hx2 : (c = x) = False := by
          simp only [eq_iff_iff, iff_false]; exact fun e => hx e.symm
        simp [Re.run, hx, List.isPrefixOf, hx2]

theorem execFrom_succ_bol (r : Re) (i : Nat) (s : JSString) :
    (Re.cat .bol r).execFrom (i + 1) s = none := by
  induction s generalizing i with
  | nil => simp [Re.execFrom, Re.run]
  | cons c t ih => simp [Re.execFrom, Re.run, ih]

theorem exec_bol (r : Re) (s : JSString) :
    (Re.cat .bol r).exec s = r.run some ⟨0, s, none⟩ := by
  cases s with
  | nil => simp [Re.exec, Re.execFrom, Re.run]
  | cons c t => simp [Re.exec, Re.execFrom, Re.run, execFrom_succ_bol]

theorem homeRe_test (path : JSString) :
    homeRe.test path = true ↔ path = "index.php".toList ∨ path = "index.php?".toList := by
  unfold Re.test homeRe
  rw [exec_bol, run_lit]
  constructor
  · intro h
    by_cases hp : ("index.php".toList).isPrefixOf path = true
    · obtain ⟨t, ht⟩ := List.isPrefixOf_iff_prefix.mp hp
      subst ht
      simp only [List.isPrefixOf_iff_prefix, List.prefix_append, if_true,
        List.drop_left] at h
      rcases t with _ | ⟨x, t⟩
      · left; simp
      · right
        by_cases hx : x = '?'
        · subst hx
          cases t with
          | nil => rfl
          | cons y u => simp [Re.run] at h
        · simp [Re.run, hx] at h
    · rw [if_neg hp] at h
      simp at h
  · rintro (h | h) <;> subst h <;> decide

theorem split_no_sep (sep : Char) (q : JSString) (hq : sep ∉ q) : split sep q = [q] := by
  induction q with
  | nil => rfl
  | cons c t ih =>
    have hc : c ≠ sep := fun e => hq (by simp [e])
    have ht : sep ∉ t := fun e => hq (List.mem_cons_of_mem _ e)
    simp [split, hc, ih ht]

theorem split_append_sep (sep : Char) (p q : JSString) (hp : sep ∉ p) :
    split sep (p ++ sep :: q) = p :: split sep q := by
  induction p with
  | nil => simp [split]
  | cons c t ih =>
    have hc : c ≠ sep := fun e => hp (by simp [e])
    have ht : sep ∉ t := fun e => hp (List.mem_cons_of_mem _ e)
    simp [split, hc, ih ht]

/-! ## The active-button rule -/

/-- C1: for every location, with `path = getBasePath()`, `isActive('index.php')` is true
when the path is one of `""`, `"/"`, `"index.php"`, `"index.php?"`, and false for every
other path. -/
theorem isActive_home (h : Host) :
    (getBasePath h ∈ [[], "/".toList, "index.php".toList, "index.php?".toList] →
      isActive h (some "index.php".toList) = true) ∧
    (getBasePath h ∉ [[], "/".toList, "index.php".toList, "index.php?".toList] →
      isActive h (some "index.php".toList) = false) := by
  have key : isActive h (some "index.php".toList) = true ↔
      getBasePath h ∈ [[], "/".toList, "index.php".toList, "index.php?".toList] := by
    have e : isActive h (some "index.php".toList) = isHomePage (getBasePath h) := by
      simp [isActive]
    rw [e]
    simp only [isHomePage, Bool.or_eq_true, beq_iff_eq, homeRe_test, List.mem_cons,
      List.mem_singleton, List.not_mem_nil, or_false, or_assoc]
  refine ⟨key.mpr, fun hn => ?_⟩
  cases hv : isActive h (some "index.php".toList) with
  | false => rfl
  | true => exact absurd (key.mp hv) hn

/-- C2, as stated, fails: the target `index.php?page=1&action=forum` contains
`action=forum` and the current path `index.php?action=forum` contains it too, yet
`isActive` is false, because the path is searched for the whole text after the `?` of
the target (`page=1&action=forum`). -/
theorem isActive_action_counterexample :
    "action=forum".toList <:+: "index.php?page=1&action=forum".toList ∧
    "action=forum".toList <:+:
      getBasePath ⟨none, BASE_URL ++ "index.php?action=forum".toList, none⟩ ∧
    isActive ⟨none, BASE_URL ++ "index.php?action=forum".toList, none⟩
      (some "index.php?page=1&action=forum".toList) = false := by
  refine ⟨?_, ?_, ?_⟩
  · rw [← includes_iff]; decide
  · rw [getBasePath, replaceFirst_append, ← includes_iff]; decide
  · simp only [isActive, getBasePath, replaceFirst_append]; decide

/-- C2, amended: for a target of the form `P?action=X`, where neither `P` nor `X`
contains a `?` (its query string is exactly `action=X`), and for every location,
`isActive` is true if and only if the current path contains the substring
`action=X`. -/
theorem isActive_action (h : Host) (P X : JSString) (hP : '?' ∉ P) (hX : '?' ∉ X) :
    isActive h (some (P ++ '?' :: ("action=".toList ++ X))) = true ↔
      ("action=".toList ++ X) <:+: getBasePath h := by
  have hq : '?' ∉ "action=".toList ++ X := by
    intro hm
    rcases List.mem_append.mp hm with hm | hm
    · revert hm; decide
    · exact hX hm
  have hne : (P ++ '?' :: ("action=".toList ++ X)).isEmpty = false := by
    cases P <;> rfl
  have hidx : (P ++ '?' :: ("action=".toList ++ X) == "index.php".toList) = false := by
    apply beq_false_of_ne
    intro e
    have hm : '?' ∈ P ++ '?' :: ("action=".toList ++ X) := by simp
    rw [e] at hm
    revert hm; decide
  have hinc : includes (P ++ '?' :: ("action=".toList ++ X)) "action=".toList = true := by
    rw [includes_iff]
    exact ⟨P ++ ['?'], X, by simp⟩
  have hsplit : (split '?' (P ++ '?' :: ("action=".toList ++ X)))[1]? =
      some ("action=".toList ++ X) := by
    rw [split_append_sep _ _ _ hP, split_no_sep _ _ hq]
    rfl
  unfold isActive
  simp only [hne, hidx, hinc, hsplit, includesArg, includes_iff, Bool.false_eq_true,
    if_false, if_true]

/-- Witness for C2 (amended): the table entry FORUM, `index.php?action=forum`, on the
forum page. -/
theorem isActive_action_witness :
    isActive ⟨none, BASE_URL ++ "index.php?action=forum".toList, none⟩
      (some ("index.php".toList ++ '?' :: ("action=".toList ++ "forum".toList))) = true ↔
    ("action=".toList ++ "forum".toList) <:+:
      getBasePath ⟨none, BASE_URL ++ "index.php?action=forum".toList, none⟩ :=
  isActive_action _ "index.php".toList "forum".toList (by decide) (by decide)

/-- C3: for a target `href` that is non-empty, is not `index.php` and does not contain
`action=`, and a location `BASE_URL + p`, the base path is `p` and `isActive(href)` is
true if and only if `p` equals `href`. -/
theorem isActive_exact (uv : Option UserVars) (lo : Option JSString) (href p : JSString)
    (hne : href ≠ []) (hidx : href ≠ "index.php".toList)
    (hact : ¬ "action=".toList <:+: href) :
    getBasePath ⟨uv, BASE_URL ++ p, lo⟩ = p ∧
    (isActive ⟨uv, BASE_URL ++ p, lo⟩ (some href) = true ↔ p = href) := by
  have hb : getBasePath ⟨uv, BASE_URL ++ p, lo⟩ = p := by
    simp [getBasePath, replaceFirst_append]
  refine ⟨hb, ?_⟩
  have h1 : href.isEmpty = false := by
    cases href with
    | nil => exact absurd rfl hne
    | cons c t => rfl
  have h2 : (href == "index.php".toList) = false := beq_false_of_ne hidx
  have h3 : includes href "action=".toList = false := by
    cases hv : includes href "action=".toList with
    | false => rfl
    | true => exact absurd ((includes_iff _ _).mp hv) hact
  unfold isActive
  simp only [h1, h2, h3, hb, Bool.false_eq_true, if_false, beq_iff_eq]

/-- Witness for C3: the MARKETPLACE target on the marketplace page. -/
theorem isActive_exact_witness :
    getBasePath ⟨none, BASE_URL ++ "index.php?page=35".toList, none⟩
      = "index.php?page=35".toList ∧
    (isActive ⟨none, BASE_URL ++ "index.php?page=35".toList, none⟩
      (some "index.php?page=35".toList) = true ↔
      "index.php?page=35".toList = "index.php?page=35".toList) :=
  isActive_exact none none "index.php?page=35".toList "index.php?page=35".toList
    (by decide) (by decide) (by rw [← includes_iff]; decide)

/-! ## The button model -/

theorem isSpecialZone_iff (z : JSVal) :
    isSpecialZone z = true ↔ z = .prim (.str "21".toList) ∨ z = .prim (.str "22".toList) := by
  simp [isSpecialZone]

theorem buildLeftButtons_disabled (specialZone inClan : Bool) :
    ∀ b ∈ buildLeftButtons specialZone inClan,
      b.isDisabled =
        (decide (b.label ∈ ["THE YARD".toList, "VENDOR".toList, "CLAN".toList])
          && !specialZone) := by
  cases specialZone <;> cases inClan <;> decide

/-- C4: for every zone value `z` and clan flag, an entry of
`buildLeftButtons(isSpecialZone(z), inClan)` is disabled if and only if it is THE YARD,
VENDOR or CLAN and `z` is neither `'21'` nor `'22'`; THE YARD and VENDOR are always in
the table and CLAN is when `inClan`. In particular no entry is disabled for zone `'21'`,
and THE YARD and VENDOR are disabled for zone `'5'` and for the null zone. -/
theorem buildLeftButtons_zone_gating (z : JSVal) (inClan : Bool) :
    (∀ b ∈ buildLeftButtons (isSpecialZone z) inClan,
      (b.isDisabled = true ↔
        (b.label ∈ ["THE YARD".toList, "VENDOR".toList, "CLAN".toList] ∧
          z ≠ .prim (.str "21".toList) ∧ z ≠ .prim (.str "22".toList)))) ∧
    (∃ b ∈ buildLeftButtons (isSpecialZone z) inClan, b.label = "THE YARD".toList) ∧
    (∃ b ∈ buildLeftButtons (isSpecialZone z) inClan, b.label = "VENDOR".toList) ∧
    ((∃ b ∈ buildLeftButtons (isSpecialZone z) inClan, b.label = "CLAN".toList) ↔
      inClan = true) ∧
    (∀ b ∈ buildLeftButtons (isSpecialZone (.prim (.str "21".toList))) inClan,
      b.isDisabled = false) ∧
    (∀ b ∈ buildLeftButtons (isSpecialZone (.prim (.str "5".toList))) inClan,
      b.label ∈ ["THE YARD".toList, "VENDOR".toList] → b.isDisabled = true) ∧
    (∀ b ∈ buildLeftButtons (isSpecialZone (.prim .null)) inClan,
      b.label ∈ ["THE YARD".toList, "VENDOR".toList] → b.isDisabled = true) := by
  refine ⟨?_, ?_, ?_, ?_, ?_, ?_, ?_⟩
  · intro b hb
    rw [buildLeftButtons_disabled _ _ b hb]
    have hz := isSpecialZone_iff z
    cases hs : isSpecialZone z with
    | true =>
      have := hz.mp hs
      simp only [Bool.not_true, Bool.and_false, Bool.false_eq_true, false_iff, not_and,
        not_not]
      intro _ h21
      rcases this with e | e
      · exact absurd e h21
      · exact e
    | false =>
      have hn : ¬ (z = .prim (.str "21".toList) ∨ z = .prim (.str "22".toList)) := by
        rw [← hz, hs]; simp
      simp only [Bool.not_false, Bool.and_true, decide_eq_true_eq]
      constructor
      · exact fun hl => ⟨hl, fun e => hn (Or.inl e), fun e => hn (Or.inr e)⟩
      · exact fun hl => hl.1
  · cases isSpecialZone z <;> cases inClan <;> decide
  · cases isSpecialZone z <;> cases inClan <;> decide
  · cases isSpecialZone z <;> cases inClan <;> decide
  · cases inClan <;> decide
  · cases inClan <;> decide
  · cases inClan <;> decide

/-- C5: for every clan flag, `buildLeftButtons(true, inClan)` and
`buildLeftButtons(false, inClan)` have the same length and, position by position, the
same descriptors once the `disabled` property is set aside (labels, targets, kinds and
order agree); at a position holding THE YARD, VENDOR or CLAN the first has
`disabled: false` and the second `disabled: true`, at every other position the two
descriptors are identical. -/
theorem buildLeftButtons_toggle (inClan : Bool) :
    (buildLeftButtons true inClan).length = (buildLeftButtons false inClan).length ∧
    (buildLeftButtons true inClan).map (fun b => { b with disabled := none }) =
      (buildLeftButtons false inClan).map (fun b => { b with disabled := none }) ∧
    (∀ p ∈ (buildLeftButtons true inClan).zip (buildLeftButtons false inClan),
      (p.1.label ∈ ["THE YARD".toList, "VENDOR".toList, "CLAN".toList] →
        p.1.disabled = some false ∧ p.2.disabled = some true) ∧
      (p.1.label ∉ ["THE YARD".toList, "VENDOR".toList, "CLAN".toList] → p.1 = p.2)) := by
  cases inClan <;> decide

/-! ## Rendering on the marketplace page -/

/-- The function `isActive` reads the location only through `getBasePath`. -/
theorem isActive_congr (h h' : Host) (e : getBasePath h = getBasePath h')
    (href : Option JSString) : isActive h href = isActive h' href := by
  unfold isActive
  rw [e]

theorem renderLeft_congr (h h' : Host) (e : getBasePath h = getBasePath h') (b : Btn) :
    renderLeft h b = renderLeft h' b := by
  unfold renderLeft buildClanWrap
  simp only [isActive_congr h h' e]

theorem renderRight_congr (h h' : Host) (e : getBasePath h = getBasePath h') (b : Btn) :
    renderRight h b = renderRight h' b := by
  unfold renderRight
  simp only [isActive_congr h h' e]

theorem getBasePath_marketHost : getBasePath marketHost = "index.php?page=35".toList := by
  simp [marketHost, getBasePath, replaceFirst_append]

theorem populateLeft_congr (h h' : Host) (e : getBasePath h = getBasePath h')
    (l : List Btn) : populateLeftButtons h l = populateLeftButtons h' l := by
  unfold populateLeftButtons
  exact List.map_congr_left fun b _ => renderLeft_congr h h' e b

theorem populateRight_congr (h h' : Host) (e : getBasePath h = getBasePath h')
    (l : List Btn) : populateRightButtons h l = populateRightButtons h' l := by
  unfold populateRightButtons
  exact List.map_congr_left fun b _ => renderRight_congr h h' e b

/-- The logout entry is rendered without looking at its `href`. -/
theorem populateRight_logout (h : Host) (lo : Option JSString) :
    populateRightButtons h (buildRightButtons lo) =
      populateRightButtons h (buildRightButtons none) := rfl

/-- C6: for every zone, clan state and logout href, on a location whose base path is
`index.php?page=35` the rendered MARKETPLACE entry is active, and an entry of the left or
right group is active only if it is MARKETPLACE (so the clan entry, CITY, WIKI, logout
and all others are not active). -/
theorem marketplace_only_active (z : JSVal) (w : Script) (lo : Option JSString) (h : Host)
    (hp : getBasePath h = "index.php?page=35".toList) :
    (∃ e ∈ populateLeftButtons h (buildLeftButtons (isSpecialZone z) (hasClan w)),
      e.text = "MARKETPLACE".toList ∧ e.active = true) ∧
    (∀ e ∈ populateLeftButtons h (buildLeftButtons (isSpecialZone z) (hasClan w)) ++
        populateRightButtons h (buildRightButtons lo),
      e.active = true ↔ e.text = "MARKETPLACE".toList) := by
  have e : getBasePath h = getBasePath marketHost := by rw [hp, getBasePath_marketHost]
  rw [populateLeft_congr h marketHost e, populateRight_congr h marketHost e,
    populateRight_logout]
  cases isSpecialZone z <;> cases hasClan w <;> decide

/-- Witness for C6: zone `'5'`, no clan, a logout link, on the marketplace page. -/
theorem marketplace_only_active_witness :
    (∃ e ∈ populateLeftButtons marketHost
        (buildLeftButtons (isSpecialZone (.prim (.str "5".toList)))
          (hasClan (Script.start ⟨none, none, none⟩))),
      e.text = "MARKETPLACE".toList ∧ e.active = true) ∧
    (∀ e ∈ populateLeftButtons marketHost
        (buildLeftButtons (isSpecialZone (.prim (.str "5".toList)))
          (hasClan (Script.start ⟨none, none, none⟩))) ++
        populateRightButtons marketHost (buildRightButtons (some "index.php?page=35".toList)),
      e.active = true ↔ e.text = "MARKETPLACE".toList) :=
  marketplace_only_active _ _ _ marketHost getBasePath_marketHost

/-! ## Trade zone -/

/-- When the value selected by `??` is truthy it is returned and persisted. -/
theorem resolveTradeZone_fresh (h : Host) (w : Script)
    (ht : (nullishCoalesce h.statsTradezone h.tradezone).truthy = true) :
    (resolveTradeZone h w).2 = .prim (nullishCoalesce h.statsTradezone h.tradezone) ∧
    (resolveTradeZone h w).1.store.tradeZone =
      some (.prim (nullishCoalesce h.statsTradezone h.tradezone)) := by
  simp [resolveTradeZone, ht, GM_setValue]

/-- When both host fields are `undefined` or `null`, the persisted zone (or `null`) is
returned and nothing is written. -/
theorem resolveTradeZone_absent (h : Host) (w : Script)
    (ha : h.statsTradezone.nullish = true) (hb : h.tradezone.nullish = true) :
    resolveTradeZone h w = (w, GM_getValue w.store .tradeZone (.prim .null)) := by
  have hf : (nullishCoalesce h.statsTradezone h.tradezone).truthy = false := by
    simp only [nullishCoalesce, ha, if_true]
    cases hv : h.tradezone <;> simp_all [JSPrim.nullish, JSPrim.truthy]
  simp [resolveTradeZone, hf]

/-- C7, at the failing input: host fields `DFSTATS_df_tradezone = ''` and
`df_tradezone = '21'`, persisted zone `'5'`. Version 1.0.1 returns the cached `'5'` and
writes nothing, although `df_tradezone` holds a zone; version 1.0.0 returns `'21'` and
persists it. -/
theorem resolveTradeZone_empty_first_field :
    resolveTradeZone ⟨some ⟨.undefined, .str [], .str "21".toList⟩, [], none⟩
        (Script.start ⟨some (.prim (.str "5".toList)), none, none⟩) =
      (Script.start ⟨some (.prim (.str "5".toList)), none, none⟩,
        .prim (.str "5".toList)) ∧
    resolveTradeZoneV100 ⟨some ⟨.undefined, .str [], .str "21".toList⟩, [], none⟩
        (Script.start ⟨some (.prim (.str "5".toList)), none, none⟩) =
      (Script.start ⟨some (.prim (.str "21".toList)), none, none⟩,
        .prim (.str "21".toList)) := by
  decide

/-! ## Clan cache -/

/-- C8: for every persisted clan record whose owner id is set (truthy) and every
authenticated user id (truthy) that differs from it, `loadCachedClan`, run on the state
the script starts with, leaves `clanId = '-1'` and `clanName = ''` (so `hasClan()` is
false), stores `null` under `dfbm_clan` and leaves the other keys as they were. -/
theorem loadCachedClan_invalidates (h : Host) (st : Store) (i n owner : JSPrim)
    (hrec : st.dfbm_clan = some (.clanRec i n owner))
    (ho : owner.truthy = true) (hc : h.idMember.truthy = true)
    (hne : owner ≠ h.idMember) :
    (loadCachedClan h (Script.start st)).clanId = .str "-1".toList ∧
    (loadCachedClan h (Script.start st)).clanName = .str [] ∧
    hasClan (loadCachedClan h (Script.start st)) = false ∧
    (loadCachedClan h (Script.start st)).store.dfbm_clan = some (.prim .null) ∧
    (loadCachedClan h (Script.start st)).store = { st with dfbm_clan := some (.prim .null) } := by
  have hl : loadCachedClan h (Script.start st) =
      { Script.start st with store := GM_setValue st .dfbm_clan (.prim .null) } := by
    simp [loadCachedClan, Script.start, GM_getValue, Store.slot, hrec, JSVal.truthy,
      JSVal.userId, ho, hc, hne]
  rw [hl]
  refine ⟨rfl, rfl, ?_, rfl, rfl⟩
  simp [hasClan, Script.start]

/-- Witness for C8: a record owned by `"A"`, loaded while authenticated as `"B"`. -/
theorem loadCachedClan_invalidates_witness :
    (loadCachedClan ⟨some ⟨.str "B".toList, .undefined, .undefined⟩, [], none⟩
      (Script.start ⟨none, some (.clanRec (.str "7".toList) (.str "Foo".toList)
        (.str "A".toList)), none⟩)).clanId = .str "-1".toList ∧
    (loadCachedClan ⟨some ⟨.str "B".toList, .undefined, .undefined⟩, [], none⟩
      (Script.start ⟨none, some (.clanRec (.str "7".toList) (.str "Foo".toList)
        (.str "A".toList)), none⟩)).clanName = .str [] ∧
    hasClan (loadCachedClan ⟨some ⟨.str "B".toList, .undefined, .undefined⟩, [], none⟩
      (Script.start ⟨none, some (.clanRec (.str "7".toList) (.str "Foo".toList)
        (.str "A".toList)), none⟩)) = false ∧
    (loadCachedClan ⟨some ⟨.str "B".toList, .undefined, .undefined⟩, [], none⟩
      (Script.start ⟨none, some (.clanRec (.str "7".toList) (.str "Foo".toList)
        (.str "A".toList)), none⟩)).store.dfbm_clan = some (.prim .null) ∧
    (loadCachedClan ⟨some ⟨.str "B".toList, .undefined, .undefined⟩, [], none⟩
      (Script.start ⟨none, some (.clanRec (.str "7".toList) (.str "Foo".toList)
        (.str "A".toList)), none⟩)).store =
      { (⟨none, some (.clanRec (.str "7".toList) (.str "Foo".toList) (.str "A".toList)),
          none⟩ : Store) with dfbm_clan := some (.prim .null) } :=
  loadCachedClan_invalidates ⟨some ⟨.str "B".toList, .undefined, .undefined⟩, [], none⟩
    ⟨none, some (.clanRec (.str "7".toList) (.str "Foo".toList) (.str "A".toList)), none⟩
    (.str "7".toList) (.str "Foo".toList) (.str "A".toList) rfl (by decide) (by decide)
    (by decide)

theorem resolveTradeZone_clan (h : Host) (w : Script) :
    (resolveTradeZone h w).1.clanId = w.clanId ∧
    (resolveTradeZone h w).1.clanName = w.clanName := by
  unfold resolveTradeZone
  by_cases ht : (nullishCoalesce h.statsTradezone h.tradezone).truthy = true <;> simp [ht]

theorem buildLeftButtons_clan_entry (specialZone inClan : Bool) :
    (∃ b ∈ buildLeftButtons specialZone inClan, b.label = "CLAN".toList) ↔ inClan = true := by
  cases specialZone <;> cases inClan <;> decide

/-- C9: for every clan id and clan name, `hasClan()` holds if and only if the id is not
`'-1'` and the name is not `''`; and the left table built by `init` has a CLAN entry if
and only if `hasClan()` holds for the clan state `init` loaded (the state left by
`loadCachedClan`). -/
theorem hasClan_iff_and_clan_entry (h : Host) (w : Script) :
    (∀ (st : Store) (id name : JSPrim),
      hasClan ⟨st, id, name⟩ = true ↔ (id ≠ .str "-1".toList ∧ name ≠ .str [])) ∧
    ((∃ b ∈ (initModel h w).2.1, b.label = "CLAN".toList) ↔
      hasClan (initModel h w).1 = true) ∧
    (initModel h w).1.clanId = (loadCachedClan h w).clanId ∧
    (initModel h w).1.clanName = (loadCachedClan h w).clanName := by
  refine ⟨?_, ?_, ?_, ?_⟩
  · intro st id name
    simp [hasClan, CLAN_ID_DEFAULT]
  · simp only [initModel]
    exact buildLeftButtons_clan_entry _ _
  · exact (resolveTradeZone_clan h (loadCachedClan h w)).1
  · exact (resolveTradeZone_clan h (loadCachedClan h w)).2

/-- The extraction on a sample body: both markers present. -/
theorem fetchClanData_sample :
    fetchClanData ⟨none, [], none⟩
        "a=1&DFSTATS_df_clan_id=42&DFSTATS_df_clan_name=Foo Bar&z".toList
        (Script.start ⟨none, none, none⟩) =
      (⟨⟨none, some (.clanRec (.str "42".toList) (.str "Foo Bar".toList) .null), none⟩,
        .str "42".toList, .str "Foo Bar".toList⟩, true) := by
  decide

/-- C10: for every previously loaded clan state and every response body,
`fetchClanData` sets `clanId` and `clanName` to the values extracted from the body
(`'-1'` and `''` when a pattern does not match) and resolves to true if and only if the
extracted id differs from the previous id or the extracted name differs from the
previous name; it resolves to false when both are equal. -/
theorem fetchClanData_changed (h : Host) (html : JSString) (w : Script) :
    (fetchClanData h html w).1.clanId =
      .str ((matchGroup1 clanIdRe html).getD "-1".toList) ∧
    (fetchClanData h html w).1.clanName = .str ((matchGroup1 clanNameRe html).getD []) ∧
    ((fetchClanData h html w).2 = true ↔
      (JSPrim.str ((matchGroup1 clanIdRe html).getD "-1".toList) ≠ w.clanId ∨
        JSPrim.str ((matchGroup1 clanNameRe html).getD []) ≠ w.clanName)) ∧
    ((fetchClanData h html w).2 = false ↔
      (JSPrim.str ((matchGroup1 clanIdRe html).getD "-1".toList) = w.clanId ∧
        JSPrim.str ((matchGroup1 clanNameRe html).getD []) = w.clanName)) := by
  refine ⟨rfl, rfl, ?_, ?_⟩
  · simp [fetchClanData, CLAN_ID_DEFAULT]
  · simp [fetchClanData, CLAN_ID_DEFAULT]

/-! ## Clan refresh without markers -/

theorem execFrom_lit_absent (lit : JSString) (r : Re) (i : Nat) (s : JSString)
    (hs : ¬ lit <:+: s) : (Re.lit lit r).execFrom i s = none := by
  induction s generalizing i with
  | nil =>
    have hp : lit.isPrefixOf [] = false := by
      cases hv : lit.isPrefixOf [] with
      | false => rfl
      | true => exact absurd (List.isPrefixOf_iff_prefix.mp hv).isInfix hs
    simp [Re.execFrom, run_lit, hp]
  | cons c t ih =>
    have hp : lit.isPrefixOf (c :: t) = false := by
      cases hv : lit.isPrefixOf (c :: t) with
      | false => rfl
      | true => exact absurd (List.isPrefixOf_iff_prefix.mp hv).isInfix hs
    have ht : ¬ lit <:+: t := fun e => hs (List.infix_cons_iff.mpr (Or.inr e))
    simp [Re.execFrom, run_lit, hp, ih (i + 1) ht]

theorem matchGroup1_lit_absent (lit : JSString) (r : Re) (s : JSString)
    (hs : ¬ lit <:+: s) : matchGroup1 (Re.lit lit r) s = none := by
  simp [matchGroup1, Re.exec, execFrom_lit_absent lit r 0 s hs]

/-- C11: for every response body from which the marker `DFSTATS_df_clan_id=` or the
marker `DFSTATS_df_clan_name=` is absent, `fetchClanData` (a total function: it returns
a state and a value) leaves "no clan": a missing id marker gives `clanId = '-1'`, a
missing name marker gives `clanName = ''`, and `hasClan()` is false. -/
theorem fetchClanData_marker_absent (h : Host) (html : JSString) (w : Script)
    (habs : ¬ "DFSTATS_df_clan_id=".toList <:+: html ∨
      ¬ "DFSTATS_df_clan_name=".toList <:+: html) :
    (¬ "DFSTATS_df_clan_id=".toList <:+: html →
      (fetchClanData h html w).1.clanId = .str "-1".toList) ∧
    (¬ "DFSTATS_df_clan_name=".toList <:+: html →
      (fetchClanData h html w).1.clanName = .str []) ∧
    hasClan (fetchClanData h html w).1 = false := by
  have hid : ¬ "DFSTATS_df_clan_id=".toList <:+: html →
      (fetchClanData h html w).1.clanId = .str "-1".toList := by
    intro hn
    have := matchGroup1_lit_absent "DFSTATS_df_clan_id=".toList (.grp (.plusNot '&')) html hn
    simp only [fetchClanData, saveClanCache, clanIdRe, this]
    rfl
  have hname : ¬ "DFSTATS_df_clan_name=".toList <:+: html →
      (fetchClanData h html w).1.clanName = .str [] := by
    intro hn
    have := matchGroup1_lit_absent "DFSTATS_df_clan_name=".toList (.grp (.plusNot '&')) html hn
    simp only [fetchClanData, saveClanCache, clanNameRe, this]
    rfl
  refine ⟨hid, hname, ?_⟩
  rcases habs with hn | hn
  · simp [hasClan, hid hn, CLAN_ID_DEFAULT]
  · simp [hasClan, hname hn]

/-- Witness for C11: a body with the id marker and without the name marker. -/
theorem fetchClanData_marker_absent_witness :
    (¬ "DFSTATS_df_clan_id=".toList <:+: "x&DFSTATS_df_clan_id=42&y".toList →
      (fetchClanData ⟨none, [], none⟩ "x&DFSTATS_df_clan_id=42&y".toList
        (Script.start ⟨none, none, none⟩)).1.clanId = .str "-1".toList) ∧
    (¬ "DFSTATS_df_clan_name=".toList <:+: "x&DFSTATS_df_clan_id=42&y".toList →
      (fetchClanData ⟨none, [], none⟩ "x&DFSTATS_df_clan_id=42&y".toList
        (Script.start ⟨none, none, none⟩)).1.clanName = .str []) ∧
    hasClan (fetchClanData ⟨none, [], none⟩ "x&DFSTATS_df_clan_id=42&y".toList
      (Script.start ⟨none, none, none⟩)).1 = false :=
  fetchClanData_marker_absent ⟨none, [], none⟩ "x&DFSTATS_df_clan_id=42&y".toList
    (Script.start ⟨none, none, none⟩)
    (Or.inr (by rw [← includes_iff]; decide))

/-! ## City redirect -/

theorem isHomePage_iff (path : JSString) :
    isHomePage path = true ↔
      path ∈ [[], "/".toList, "index.php".toList, "index.php?".toList] := by
  simp only [isHomePage, Bool.or_eq_true, beq_iff_eq, homeRe_test, List.mem_cons,
    List.mem_singleton, List.not_mem_nil, or_false, or_assoc]

theorem pollTick_script (a : Bool) (p : Page) : (pollTick a p).script = p.script := by
  unfold pollTick
  cases p.polling <;> cases a <;> rfl

theorem runTicks_script (ticks : List Bool) (p : Page) :
    (runTicks ticks p).script = p.script := by
  induction ticks generalizing p with
  | nil => rfl
  | cons a rest ih => rw [runTicks, ih, pollTick_script]

theorem runTicks_append (t₁ t₂ : List Bool) (p : Page) :
    runTicks (t₁ ++ t₂) p = runTicks t₂ (runTicks t₁ p) := by
  induction t₁ generalizing p with
  | nil => rfl
  | cons a rest ih => simp [runTicks, ih]

theorem runTicks_absent (ticks : List Bool) (p : Page) (hf : ∀ a ∈ ticks, a = false) :
    runTicks ticks p = p := by
  induction ticks generalizing p with
  | nil => rfl
  | cons a rest ih =>
    have ha : a = false := hf a (by simp)
    subst ha
    have hp : pollTick false p = p := by
      unfold pollTick
      cases p.polling <;> rfl
    rw [runTicks, hp]
    exact ih p fun b hb => hf b (List.mem_cons_of_mem _ hb)

theorem runTicks_stopped (ticks : List Bool) (p : Page) (hp : p.polling = false) :
    runTicks ticks p = p := by
  induction ticks with
  | nil => rfl
  | cons a rest ih =>
    have h1 : pollTick a p = p := by
      unfold pollTick
      rw [hp]
      rfl
    rw [runTicks, h1, ih]

theorem handleCityRedirect_fires (h : Host) (p : Page)
    (hflag : (GM_getValue p.script.store .dfbm_redirectToCity
      (.prim (.bool false))).truthy = true)
    (hhome : isHomePage (getBasePath h) = true) :
    handleCityRedirect h p =
      ⟨{ p.script with
          store := GM_setValue p.script.store .dfbm_redirectToCity (.prim (.bool false)) },
        true, p.pageChanges⟩ := by
  simp [handleCityRedirect, hflag, hhome]

/-- C12: when the persisted redirect flag is true (truthy) and the current path is a
home-page variant, `handleCityRedirect` stores `false` under `dfbm_redirectToCity`
before the interval is set, leaving the other keys alone, and no poll tick writes to the
store: the flag reads `false` after the call and after any sequence of ticks, whatever
the availability of `doPageChange`. When the flag is falsy or the page is not the home
page, the call changes nothing. -/
theorem handleCityRedirect_clears_flag (h : Host) (p : Page) :
    ((GM_getValue p.script.store .dfbm_redirectToCity (.prim (.bool false))).truthy = true →
      getBasePath h ∈ [[], "/".toList, "index.php".toList, "index.php?".toList] →
      (handleCityRedirect h p).script.store =
        { p.script.store with dfbm_redirectToCity := some (.prim (.bool false)) } ∧
      ∀ ticks : List Bool,
        GM_getValue (runTicks ticks (handleCityRedirect h p)).script.store
          .dfbm_redirectToCity (.prim .undefined) = .prim (.bool false)) ∧
    (((GM_getValue p.script.store .dfbm_redirectToCity (.prim (.bool false))).truthy = false ∨
        getBasePath h ∉ [[], "/".toList, "index.php".toList, "index.php?".toList]) →
      handleCityRedirect h p = p) := by
  constructor
  · intro hflag hhome
    have hh := (isHomePage_iff _).mpr hhome
    rw [handleCityRedirect_fires h p hflag hh]
    refine ⟨rfl, fun ticks => ?_⟩
    rw [runTicks_script]
    rfl
  · intro hc
    rcases hc with hf | hn
    · simp [handleCityRedirect, hf]
    · have hh : isHomePage (getBasePath h) = false := by
        cases hv : isHomePage (getBasePath h) with
        | false => rfl
        | true => exact absurd ((isHomePage_iff _).mp hv) hn
      simp [handleCityRedirect, hh]

/-- C13: for every location and either availability of `doPageChange`, a click on CITY
sets a timeout of 1000 ms. Its callback is `doPageChange(21, 1, false)`, and the state
(the redirect flag included) is unchanged, exactly when the path is a home-page variant
and `doPageChange` is available; in every other case `true` is stored under
`dfbm_redirectToCity`, the other keys are kept, and the callback navigates to
`BASE_URL + 'index.php'`. -/
theorem cityClick_spec (h : Host) (snd can : Bool) (w : Script) :
    (cityClick h snd can w).timeout.delay = 1000 ∧
    ((cityClick h snd can w).timeout.action = .pageChange 21 1 false ↔
      (getBasePath h ∈ [[], "/".toList, "index.php".toList, "index.php?".toList] ∧
        can = true)) ∧
    ((getBasePath h ∈ [[], "/".toList, "index.php".toList, "index.php?".toList] ∧
        can = true) → (cityClick h snd can w).script = w) ∧
    (¬ (getBasePath h ∈ [[], "/".toList, "index.php".toList, "index.php?".toList] ∧
        can = true) →
      (cityClick h snd can w).timeout.action = .navigate (BASE_URL ++ "index.php".toList) ∧
      (cityClick h snd can w).script.store =
        { w.store with dfbm_redirectToCity := some (.prim (.bool true)) } ∧
      (cityClick h snd can w).script.clanId = w.clanId ∧
      (cityClick h snd can w).script.clanName = w.clanName) := by
  rw [← isHomePage_iff]
  cases hh : isHomePage (getBasePath h) <;> cases can <;>
    simp [cityClick, hh, GM_setValue]

/-- The click of C13 on the storage page, `index.php?page=50`, with `doPageChange`
available: the flag is stored as `true` and the timeout navigates home. -/
theorem cityClick_storage_page :
    cityClick ⟨none, BASE_URL ++ "index.php?page=50".toList, none⟩ true true
        (Script.start ⟨none, none, none⟩) =
      ⟨Script.start ⟨none, none, some (.prim (.bool true))⟩, some "outpost".toList,
        ⟨1000, .navigate (BASE_URL ++ "index.php".toList)⟩⟩ := by
  simp only [cityClick, getBasePath, replaceFirst_append]
  decide

/-- A home-page load with the flag set: the flag is cleared and the interval started. -/
theorem handleCityRedirect_sample :
    handleCityRedirect ⟨none, BASE_URL ++ "index.php".toList, none⟩
        (Page.load (Script.start ⟨none, none, some (.prim (.bool true))⟩)) =
      ⟨Script.start ⟨none, none, some (.prim (.bool false))⟩, true, []⟩ := by
  simp only [handleCityRedirect, getBasePath, replaceFirst_append]
  decide

/-- C14: on a home-page load with the redirect flag true, for every sequence of poll
ticks made of `pre` (ticks at which `doPageChange` is absent), one tick at which it is
available, and any ticks `post` after it: nothing is called and the interval is active
during `pre`; at the first tick with the capability, `doPageChange(21, 1, false)` is
called once and the interval is cleared; after `post` the record still holds that single
call. -/
theorem redirect_poll_once (h : Host) (w : Script) (pre post : List Bool)
    (hflag : (GM_getValue w.store .dfbm_redirectToCity (.prim (.bool false))).truthy = true)
    (hhome : getBasePath h ∈ [[], "/".toList, "index.php".toList, "index.php?".toList])
    (hpre : ∀ a ∈ pre, a = false) :
    (runTicks pre (handleCityRedirect h (Page.load w))).polling = true ∧
    (runTicks pre (handleCityRedirect h (Page.load w))).pageChanges = [] ∧
    (runTicks (pre ++ [true]) (handleCityRedirect h (Page.load w))).polling = false ∧
    (runTicks (pre ++ [true]) (handleCityRedirect h (Page.load w))).pageChanges =
      [(21, 1, false)] ∧
    (runTicks (pre ++ true :: post) (handleCityRedirect h (Page.load w))).polling = false ∧
    (runTicks (pre ++ true :: post) (handleCityRedirect h (Page.load w))).pageChanges =
      [(21, 1, false)] := by
  have hh := (isHomePage_iff _).mpr hhome
  have hq := handleCityRedirect_fires h (Page.load w) hflag hh
  rw [runTicks_append, runTicks_append, runTicks_absent pre _ hpre, hq]
  have h1 : runTicks [true]
      (⟨{ (Page.load w).script with
          store := GM_setValue (Page.load w).script.store .dfbm_redirectToCity
            (.prim (.bool false)) }, true, (Page.load w).pageChanges⟩ : Page) =
      ⟨{ (Page.load w).script with
          store := GM_setValue (Page.load w).script.store .dfbm_redirectToCity
            (.prim (.bool false)) }, false, [(21, 1, false)]⟩ := rfl
  have h2 : runTicks (true :: post)
      (⟨{ (Page.load w).script with
          store := GM_setValue (Page.load w).script.store .dfbm_redirectToCity
            (.prim (.bool false)) }, true, (Page.load w).pageChanges⟩ : Page) =
      ⟨{ (Page.load w).script with
          store := GM_setValue (Page.load w).script.store .dfbm_redirectToCity
            (.prim (.bool false)) }, false, [(21, 1, false)]⟩ := by
    rw [runTicks]
    exact runTicks_stopped post _ rfl
  rw [h1, h2]
  exact ⟨rfl, rfl, rfl, rfl, rfl, rfl⟩

/-- Witness for C14: the capability appears at the third tick and stays. -/
theorem redirect_poll_once_witness :
    (runTicks [false, false] (handleCityRedirect
      ⟨none, BASE_URL ++ "index.php".toList, none⟩
      (Page.load (Script.start ⟨none, none, some (.prim (.bool true))⟩)))).polling = true ∧
    (runTicks [false, false] (handleCityRedirect
      ⟨none, BASE_URL ++ "index.php".toList, none⟩
      (Page.load (Script.start ⟨none, none, some (.prim (.bool true))⟩)))).pageChanges = [] ∧
    (runTicks ([false, false] ++ [true]) (handleCityRedirect
      ⟨none, BASE_URL ++ "index.php".toList, none⟩
      (Page.load (Script.start ⟨none, none, some (.prim (.bool true))⟩)))).polling = false ∧
    (runTicks ([false, false] ++ [true]) (handleCityRedirect
      ⟨none, BASE_URL ++ "index.php".toList, none⟩
      (Page.load (Script.start ⟨none, none, some (.prim (.bool true))⟩)))).pageChanges =
      [(21, 1, false)] ∧
    (runTicks ([false, false] ++ true :: [true, false, true]) (handleCityRedirect
      ⟨none, BASE_URL ++ "index.php".toList, none⟩
      (Page.load (Script.start ⟨none, none, some (.prim (.bool true))⟩)))).polling = false ∧
    (runTicks ([false, false] ++ true :: [true, false, true]) (handleCityRedirect
      ⟨none, BASE_URL ++ "index.php".toList, none⟩
      (Page.load (Script.start ⟨none, none, some (.prim (.bool true))⟩)))).pageChanges =
      [(21, 1, false)] :=
  redirect_poll_once ⟨none, BASE_URL ++ "index.php".toList, none⟩
    (Script.start ⟨none, none, some (.prim (.bool true))⟩) [false, false] [true, false, true]
    (by decide)
    (by simp [getBasePath, replaceFirst_append])
    (by decide)

/-- C15: on a home-page load with the redirect flag true, after any number `n` of poll
ticks at which `doPageChange` is absent the interval is still active and
`doPageChange` has not been called. -/
theorem redirect_poll_unbounded (h : Host) (w : Script) (n : Nat)
    (hflag : (GM_getValue w.store .dfbm_redirectToCity (.prim (.bool false))).truthy = true)
    (hhome : getBasePath h ∈ [[], "/".toList, "index.php".toList, "index.php?".toList]) :
    (runTicks (List.replicate n false) (handleCityRedirect h (Page.load w))).polling = true ∧
    (runTicks (List.replicate n false) (handleCityRedirect h (Page.load w))).pageChanges
      = [] := by
  have hh := (isHomePage_iff _).mpr hhome
  rw [runTicks_absent _ _ (fun a ha => (List.mem_replicate.mp ha).2),
    handleCityRedirect_fires h (Page.load w) hflag hh]
  exact ⟨rfl, rfl⟩

/-- Witness for C15: a thousand ticks without the capability. -/
theorem redirect_poll_unbounded_witness :
    (runTicks (List.replicate 1000 false) (handleCityRedirect
      ⟨none, BASE_URL ++ "index.php".toList, none⟩
      (Page.load (Script.start ⟨none, none, some (.prim (.bool true))⟩)))).polling = true ∧
    (runTicks (List.replicate 1000 false) (handleCityRedirect
      ⟨none, BASE_URL ++ "index.php".toList, none⟩
      (Page.load (Script.start ⟨none, none, some (.prim (.bool true))⟩)))).pageChanges
      = [] :=
  redirect_poll_unbounded ⟨none, BASE_URL ++ "index.php".toList, none⟩
    (Script.start ⟨none, none, some (.prim (.bool true))⟩) 1000
    (by decide)
    (by simp [getBasePath, replaceFirst_append])

/-! ## Clan dropdown -/

theorem clanIsOpen_remove (cl : List JSString) :
    clanIsOpen (classListRemove "dfbm-clan-open".toList cl) = false := by
  simp [clanIsOpen, classListRemove]

theorem clanIsOpen_toggle (cl : List JSString) :
    clanIsOpen (classListToggle "dfbm-clan-open".toList cl) = !clanIsOpen cl := by
  unfold classListToggle
  cases hc : cl.contains "dfbm-clan-open".toList with
  | true =>
    have h1 : clanIsOpen cl = true := hc
    rw [if_pos rfl, clanIsOpen_remove, h1]
    rfl
  | false =>
    have h1 : clanIsOpen cl = false := hc
    rw [if_neg (by simp), h1]
    simp [clanIsOpen]

theorem buildClanWrap_closed (h : Host) (btn : Btn) :
    clanIsOpen (buildClanWrap h btn).classes = false := by
  unfold buildClanWrap clanIsOpen
  cases btn.isDisabled <;> simp

/-- C16, as stated, fails: on an enabled clan entry a first click on the clan button
opens the dropdown and a second click on the same button closes it, a transition from
open to closed that is not a document click. -/
theorem clan_dropdown_counterexample :
    clanIsOpen (clanWrapStep false ["dfbm-clan-wrap".toList] .clickButton) = true ∧
    clanIsOpen (clanWrapStep false
      (clanWrapStep false ["dfbm-clan-wrap".toList] .clickButton) .clickButton) = false := by
  decide

/-- C16, amended: the clan dropdown has the two states closed and open (the wrapper
carries `dfbm-clan-open` or not) and is built closed. On an entry built enabled, a click
on the clan button toggles the state (closed to open, open to closed), a click that
reaches `document` closes it, and no other event changes it. On an entry built disabled
no event changes the state. -/
theorem clan_dropdown_machine (h : Host) (btn : Btn) (disabled : Bool)
    (classes : List JSString) :
    clanIsOpen (buildClanWrap h btn).classes = false ∧
    clanIsOpen (clanWrapStep false classes .clickButton) = !clanIsOpen classes ∧
    clanIsOpen (clanWrapStep false classes .clickDocument) = false ∧
    clanWrapStep disabled classes .other = classes ∧
    (∀ ev, clanWrapStep true classes ev = classes) := by
  refine ⟨buildClanWrap_closed h btn, ?_, ?_, rfl, ?_⟩
  · exact clanIsOpen_toggle classes
  · exact clanIsOpen_remove classes
  · intro ev
    cases ev <;> rfl

theorem clanWrapRun_disabled (events : List ClanEvent) (classes : List JSString) :
    clanWrapRun true events classes = classes := by
  induction events with
  | nil => rfl
  | cons ev rest ih =>
    have h1 : clanWrapStep true classes ev = classes := by cases ev <;> rfl
    rw [clanWrapRun, h1, ih]

/-- C17: for a clan entry built disabled, after every sequence of clicks on the clan
button, clicks on the document and other events, the wrapper has the class list it was
built with and the dropdown is closed. -/
theorem clan_dropdown_disabled (h : Host) (btn : Btn) (events : List ClanEvent)
    (hd : btn.isDisabled = true) :
    clanWrapRun btn.isDisabled events (buildClanWrap h btn).classes =
      (buildClanWrap h btn).classes ∧
    clanIsOpen (clanWrapRun btn.isDisabled events (buildClanWrap h btn).classes) = false := by
  rw [hd, clanWrapRun_disabled]
  exact ⟨rfl, buildClanWrap_closed h btn⟩

/-- Witness for C17: the CLAN entry of the table for a non-special zone, clicked three
times. -/
theorem clan_dropdown_disabled_witness :
    clanWrapRun
        (Btn.gated "CLAN" "" true).isDisabled [.clickButton, .clickDocument, .clickButton]
        (buildClanWrap marketHost (Btn.gated "CLAN" "" true)).classes =
      (buildClanWrap marketHost (Btn.gated "CLAN" "" true)).classes ∧
    clanIsOpen (clanWrapRun
      (Btn.gated "CLAN" "" true).isDisabled [.clickButton, .clickDocument, .clickButton]
      (buildClanWrap marketHost (Btn.gated "CLAN" "" true)).classes) = false :=
  clan_dropdown_disabled marketHost (Btn.gated "CLAN" "" true)
    [.clickButton, .clickDocument, .clickButton] rfl

/-! ## Disabled entries -/

theorem renderLeft_disabled (h : Host) (b : Btn) (hc : b.isCity = false) :
    (renderLeft h b).disabled = b.isDisabled := by
  unfold renderLeft buildClanWrap makeAnchor
  cases b.hasClanDropdown <;> simp [hc]

theorem buildLeftButtons_disabled_not_city (specialZone inClan : Bool) :
    ∀ b ∈ buildLeftButtons specialZone inClan, b.isDisabled = true → b.isCity = false := by
  cases specialZone <;> cases inClan <;> decide

theorem renderLeft_disabled_class (h : Host) (b : Btn) (hc : b.isCity = false)
    (hd : b.isDisabled = true) :
    (if b.hasClanDropdown then "dfbm-clan-disabled".toList else "dfbm-disabled".toList)
      ∈ (renderLeft h b).classes := by
  unfold renderLeft buildClanWrap makeAnchor
  cases b.hasClanDropdown <;> simp [hc, hd]

theorem gated_entries_zone5 (inClan : Bool) :
    ∀ b ∈ buildLeftButtons (isSpecialZone (.prim (.str "5".toList))) inClan,
      b.label ∈ ["THE YARD".toList, "VENDOR".toList] →
        b = Btn.gated "THE YARD" "index.php?page=24" true ∨
          b = Btn.gated "VENDOR" "index.php?page=84" true := by
  cases inClan <;> decide

/-- C18, at the failing input: zone `'5'`, the rendered THE YARD and VENDOR entries. For
every location and clan flag the button of such an entry has its `disabled` property set
and the anchor has the class `dfbm-disabled`, but the anchor around the button still
carries the target as its `href` (`index.php?page=24`, `index.php?page=84`):
`makeAnchor` is called with `btn.href` whether or not the entry is disabled, and no
listener is attached to the entry. The CITY and logout anchors, which must not navigate
by themselves, are built with no `href`. -/
theorem disabled_left_keeps_href (h : Host) (inClan : Bool) :
    (∀ b ∈ buildLeftButtons (isSpecialZone (.prim (.str "5".toList))) inClan,
      b.label ∈ ["THE YARD".toList, "VENDOR".toList] →
        (renderLeft h b).disabled = true ∧
        "dfbm-disabled".toList ∈ (renderLeft h b).classes ∧
        (renderLeft h b).href = b.href ∧ b.href ≠ none) ∧
    (renderLeft h (Btn.gated "THE YARD" "index.php?page=24" true)).href =
      some "index.php?page=24".toList ∧
    (renderLeft h (Btn.gated "VENDOR" "index.php?page=84" true)).href =
      some "index.php?page=84".toList ∧
    buildCityButton.href = none ∧
    (∀ btn : Btn, (buildLogoutAnchor btn).href = none) := by
  refine ⟨?_, rfl, rfl, rfl, fun _ => rfl⟩
  intro b hb hl
  rcases gated_entries_zone5 inClan b hb hl with e | e <;> subst e
  · exact ⟨rfl, by simp [renderLeft, makeAnchor, Btn.gated, Btn.isDisabled], rfl, by decide⟩
  · exact ⟨rfl, by simp [renderLeft, makeAnchor, Btn.gated, Btn.isDisabled], rfl, by decide⟩

/-! ## Hiding the original navigation -/

theorem setOverflowVisible_idem (n : Node) :
    setOverflowVisible (setOverflowVisible n) = setOverflowVisible n := rfl

theorem setOverflowVisible_isBody (n : Node) : (setOverflowVisible n).isBody = n.isBody := rfl

theorem fixOverflowStep_cases (computed : Node → JSString × JSString × JSString)
    (el : Node) :
    fixOverflowStep computed el = setOverflowVisible el ∨ fixOverflowStep computed el = el := by
  simp only [fixOverflowStep]
  split
  · exact Or.inl rfl
  · exact Or.inr rfl

theorem fixOverflowStep_isBody (computed : Node → JSString × JSString × JSString)
    (el : Node) : (fixOverflowStep computed el).isBody = el.isBody := by
  rcases fixOverflowStep_cases computed el with e | e <;> rw [e]
  rfl

theorem fixOverflowStep_visible (computed : Node → JSString × JSString × JSString)
    (el : Node) :
    fixOverflowStep computed (setOverflowVisible el) = setOverflowVisible el := by
  rcases fixOverflowStep_cases computed (setOverflowVisible el) with e | e <;> rw [e]
  rfl

theorem fixOverflowStep_idem (computed : Node → JSString × JSString × JSString) (el : Node) :
    fixOverflowStep computed (fixOverflowStep computed el) = fixOverflowStep computed el := by
  rcases fixOverflowStep_cases computed el with e | e
  · rw [e, fixOverflowStep_visible]
  · rw [e, e]

theorem fixOverflowAncestors_idem (computed : Node → JSString × JSString × JSString)
    (l : List Node) :
    fixOverflowAncestors computed (fixOverflowAncestors computed l) =
      fixOverflowAncestors computed l := by
  induction l with
  | nil => rfl
  | cons el up ih =>
    cases hb : el.isBody with
    | true => simp [fixOverflowAncestors, hb]
    | false =>
      simp only [fixOverflowAncestors, hb, Bool.false_eq_true, if_false,
        fixOverflowStep_isBody, fixOverflowStep_idem, ih]

theorem fixOverflowAncestors_body (computed : Node → JSString × JSString × JSString)
    (below : List Node) (body : Node) (above : List Node)
    (hbody : body.isBody = true) (hbelow : ∀ n ∈ below, n.isBody = false) :
    ∃ below', below'.length = below.length ∧
      fixOverflowAncestors computed (below ++ body :: above) = below' ++ body :: above := by
  induction below with
  | nil => exact ⟨[], rfl, by simp [fixOverflowAncestors, hbody]⟩
  | cons el rest ih =>
    obtain ⟨r', hl, he⟩ := ih fun n hn => hbelow n (List.mem_cons_of_mem _ hn)
    have hb : el.isBody = false := hbelow el (by simp)
    refine ⟨fixOverflowStep computed el :: r', by simp [hl], ?_⟩
    have e : fixOverflowAncestors computed (el :: (rest ++ body :: above)) =
        fixOverflowStep computed el :: fixOverflowAncestors computed (rest ++ body :: above) := by
      simp only [fixOverflowAncestors, hb, Bool.false_eq_true, if_false]
    rw [List.cons_append, e, he]
    rfl

theorem hideOriginalNav_parent_touched (nav p : Node) (up : List Node)
    (hc : (p.id != "sidebar".toList && p.tagName != "BODY".toList) = true) :
    hideOriginalNav ⟨nav, p :: up⟩ =
      ⟨{ nav with style := ⟨HIDE_CSS, none⟩ }, setOverflowVisible p :: up⟩ := by
  simp only [hideOriginalNav, hc, if_true]

theorem hideOriginalNav_parent_kept (nav p : Node) (up : List Node)
    (hc : (p.id != "sidebar".toList && p.tagName != "BODY".toList) = false) :
    hideOriginalNav ⟨nav, p :: up⟩ = ⟨{ nav with style := ⟨HIDE_CSS, none⟩ }, p :: up⟩ := by
  simp only [hideOriginalNav, hc, Bool.false_eq_true, if_false]

/-- C19: for every navigation element, every finite chain of ancestors and every
computed-style function, running `hideOriginalNav` and then `fixOverflowAncestors` a
second time leaves every element (the navigation element and all ancestors, hence their
inline styles) as the first run left it; and the walk of `fixOverflowAncestors` stops at
`document.body`: on a chain `below ++ body :: above` it returns the body and everything
above it unchanged. -/
theorem hideNav_idempotent (computed : Node → JSString × JSString × JSString)
    (t : NavTree) :
    hideNav computed (hideNav computed t) = hideNav computed t ∧
    (∀ (below above : List Node) (body : Node), body.isBody = true →
      (∀ n ∈ below, n.isBody = false) →
      ∃ below', below'.length = below.length ∧
        fixOverflowAncestors computed (below ++ body :: above) = below' ++ body :: above) := by
  refine ⟨?_, fun below above body hb hbelow =>
    fixOverflowAncestors_body computed below body above hb hbelow⟩
  obtain ⟨nav, anc⟩ := t
  cases anc with
  | nil => rfl
  | cons p up =>
    cases hc : (p.id != "sidebar".toList && p.tagName != "BODY".toList) with
    | true =>
      have hc2 : ((setOverflowVisible p).id != "sidebar".toList &&
          (setOverflowVisible p).tagName != "BODY".toList) = true := hc
      cases hb : p.isBody with
      | true =>
        have hb2 : (setOverflowVisible p).isBody = true := hb
        have e1 : hideNav computed ⟨nav, p :: up⟩ =
            ⟨{ nav with style := ⟨HIDE_CSS, none⟩ }, setOverflowVisible p :: up⟩ := by
          simp only [hideNav, hideOriginalNav_parent_touched nav p up hc, fixOverflowAncestors,
            hb2, if_true]
        rw [e1]
        simp only [hideNav, hideOriginalNav_parent_touched _ _ up hc2, fixOverflowAncestors,
          hb2, if_true, setOverflowVisible_idem]
      | false =>
        have hb2 : (setOverflowVisible p).isBody = false := hb
        have e1 : hideNav computed ⟨nav, p :: up⟩ =
            ⟨{ nav with style := ⟨HIDE_CSS, none⟩ },
              setOverflowVisible p :: fixOverflowAncestors computed up⟩ := by
          simp only [hideNav, hideOriginalNav_parent_touched nav p up hc, fixOverflowAncestors,
            hb2, Bool.false_eq_true, if_false, fixOverflowStep_visible]
        rw [e1]
        simp only [hideNav, hideOriginalNav_parent_touched _ _ _ hc2, fixOverflowAncestors,
          hb2, Bool.false_eq_true, if_false, fixOverflowStep_visible, setOverflowVisible_idem,
          fixOverflowAncestors_idem]
    | false =>
      cases hb : p.isBody with
      | true =>
        have e1 : hideNav computed ⟨nav, p :: up⟩ =
            ⟨{ nav with style := ⟨HIDE_CSS, none⟩ }, p :: up⟩ := by
          simp only [hideNav, hideOriginalNav_parent_kept nav p up hc, fixOverflowAncestors,
            hb, if_true]
        rw [e1]
        simp only [hideNav, hideOriginalNav_parent_kept _ p up hc, fixOverflowAncestors,
          hb, if_true]
      | false =>
        have hc3 : ((fixOverflowStep computed p).id != "sidebar".toList &&
            (fixOverflowStep computed p).tagName != "BODY".toList) = false := by
          rcases fixOverflowStep_cases computed p with e | e <;> rw [e] <;> exact hc
        have e1 : hideNav computed ⟨nav, p :: up⟩ =
            ⟨{ nav with style := ⟨HIDE_CSS, none⟩ },
              fixOverflowStep computed p :: fixOverflowAncestors computed up⟩ := by
          simp only [hideNav, hideOriginalNav_parent_kept nav p up hc, fixOverflowAncestors,
            hb, Bool.false_eq_true, if_false]
        rw [e1]
        simp only [hideNav, hideOriginalNav_parent_kept _ _ _ hc3, fixOverflowAncestors,
          fixOverflowStep_isBody, hb, Bool.false_eq_true, if_false, fixOverflowStep_idem,
          fixOverflowAncestors_idem]

/-! ## Clan button sync -/

theorem isClanWrap_buildClanWrap (h : Host) (b : Btn) :
    isClanWrap (buildClanWrap h b) = true := by
  simp [isClanWrap, buildClanWrap]

theorem isStorageBtn_buildClanWrap (h : Host) (b : Btn) :
    isStorageBtn (buildClanWrap h b) = false := by
  unfold isStorageBtn buildClanWrap
  cases b.isDisabled <;> simp

theorem isClanWrap_makeAnchor (href : Option JSString) (cls : List JSString)
    (text : JSString) (d : Bool) (hc : "dfbm-clan-wrap".toList ∉ cls) :
    isClanWrap (makeAnchor href cls text d) = false := by
  simp only [isClanWrap, makeAnchor, List.contains_cons, Bool.or_eq_false_iff]
  refine ⟨by simp, ?_⟩
  cases hv : cls.contains "dfbm-clan-wrap".toList with
  | false => rfl
  | true => exact absurd (List.elem_iff.mp hv) hc

theorem isClanWrap_renderLeft (h : Host) (b : Btn) :
    isClanWrap (renderLeft h b) = b.hasClanDropdown := by
  unfold renderLeft
  cases hcd : b.hasClanDropdown with
  | true => simp [isClanWrap_buildClanWrap]
  | false =>
    cases b.isCity with
    | true =>
      simp only [Bool.false_eq_true, if_false, if_true, buildCityButton]
      exact isClanWrap_makeAnchor _ _ _ _ (by decide)
    | false =>
      simp only [Bool.false_eq_true, if_false]
      apply isClanWrap_makeAnchor
      cases b.isDisabled <;> cases isActive h b.href <;> decide

theorem isStorageBtn_renderLeft (h : Host) (b : Btn) :
    isStorageBtn (renderLeft h b) =
      (!b.hasClanDropdown && !b.isCity && b.label == "STORAGE".toList) := by
  unfold renderLeft
  cases hcd : b.hasClanDropdown with
  | true => simp [isStorageBtn_buildClanWrap]
  | false =>
    cases b.isCity with
    | true =>
      have e : isStorageBtn (makeAnchor none ["dfbm-city".toList] "CITY›".toList false)
          = false := by decide
      simp only [Bool.false_eq_true, if_false, if_true, buildCityButton, e]
      rfl
    | false =>
      simp [isStorageBtn, makeAnchor]

theorem insertAfterFirst_map {α β : Type} (f : α → β) (p : β → Bool) (x : α) (l : List α) :
    insertAfterFirst p (f x) (l.map f) = (insertAfterFirst (p ∘ f) x l).map f := by
  induction l with
  | nil => rfl
  | cons a t ih =>
    cases hp : p (f a) <;> simp [insertAfterFirst, hp, ih]

theorem isClanWrap_comp (h : Host) :
    isClanWrap ∘ renderLeft h = fun b => b.hasClanDropdown :=
  funext fun b => isClanWrap_renderLeft h b

theorem isStorageBtn_comp (h : Host) :
    isStorageBtn ∘ renderLeft h =
      fun b => !b.hasClanDropdown && !b.isCity && b.label == "STORAGE".toList :=
  funext fun b => isStorageBtn_renderLeft h b

/-- The function `syncClanButton` on a rendered table acts on the descriptors: it is
the rendering of the table with the CLAN descriptor removed and inserted again. -/
theorem syncClanButton_populate (h : Host) (w : Script) (clanChanged : Bool)
    (T : List Btn) :
    syncClanButton h w clanChanged (populateLeftButtons h T) =
      populateLeftButtons h
        (if !clanChanged && (T.find? fun b => b.hasClanDropdown).isSome && hasClan w then T
         else if !clanChanged && !(T.find? fun b => b.hasClanDropdown).isSome && !hasClan w
         then T
         else if !hasClan w then
           (if (T.find? fun b => b.hasClanDropdown).isSome
            then T.eraseP fun b => b.hasClanDropdown else T)
         else
           insertAfterFirst
             (fun b => !b.hasClanDropdown && !b.isCity && b.label == "STORAGE".toList)
             ⟨"CLAN".toList, none,
               some (!isSpecialZone (GM_getValue w.store .tradeZone (.prim .null))),
               true, false, false, false, none, false, false⟩
             (if (T.find? fun b => b.hasClanDropdown).isSome
              then T.eraseP fun b => b.hasClanDropdown else T)) := by
  have hwrap : buildClanWrap h
      ⟨"CLAN".toList, none,
        some (!isSpecialZone (GM_getValue w.store .tradeZone (.prim .null))),
        false, false, false, false, none, false, false⟩ =
      renderLeft h ⟨"CLAN".toList, none,
        some (!isSpecialZone (GM_getValue w.store .tradeZone (.prim .null))),
        true, false, false, false, none, false, false⟩ := rfl
  unfold syncClanButton populateLeftButtons
  simp only [List.find?_map, Option.isSome_map', isClanWrap_comp, hwrap, List.eraseP_map]
  split
  · rfl
  · split
    · rfl
    · split
      · split <;> rfl
      · split <;> rw [insertAfterFirst_map, isStorageBtn_comp]

theorem syncTable_rebuild (z c0 clanChanged c1 : Bool) :
    (if !clanChanged && ((buildLeftButtons z c0).find? fun b => b.hasClanDropdown).isSome && c1
     then buildLeftButtons z c0
     else if !clanChanged && !((buildLeftButtons z c0).find? fun b => b.hasClanDropdown).isSome
        && !c1
     then buildLeftButtons z c0
     else if !c1 then
       (if ((buildLeftButtons z c0).find? fun b => b.hasClanDropdown).isSome
        then (buildLeftButtons z c0).eraseP fun b => b.hasClanDropdown
        else buildLeftButtons z c0)
     else
       insertAfterFirst
         (fun b => !b.hasClanDropdown && !b.isCity && b.label == "STORAGE".toList)
         ⟨"CLAN".toList, none, some (!z), true, false, false, false, none, false, false⟩
         (if ((buildLeftButtons z c0).find? fun b => b.hasClanDropdown).isSome
          then (buildLeftButtons z c0).eraseP fun b => b.hasClanDropdown
          else buildLeftButtons z c0)) = buildLeftButtons z c1 := by
  cases z <;> cases c0 <;> cases clanChanged <;> cases c1 <;> decide

theorem populateLeft_clan_count (h : Host) (z c1 : Bool) :
    (populateLeftButtons h (buildLeftButtons z c1)).countP isClanWrap ≤ 1 ∧
    ((∃ e ∈ populateLeftButtons h (buildLeftButtons z c1), isClanWrap e = true) ↔
      c1 = true) := by
  constructor
  · rw [populateLeftButtons, List.countP_map, isClanWrap_comp]
    cases z <;> cases c1 <;> decide
  · have e : (∃ e ∈ populateLeftButtons h (buildLeftButtons z c1), isClanWrap e = true) ↔
        ∃ b ∈ buildLeftButtons z c1, b.hasClanDropdown = true := by
      simp only [populateLeftButtons, List.mem_map]
      constructor
      · rintro ⟨e, ⟨b, hb, rfl⟩, he⟩
        exact ⟨b, hb, by rw [← isClanWrap_renderLeft h b]; exact he⟩
      · rintro ⟨b, hb, hd⟩
        exact ⟨renderLeft h b, ⟨b, hb, rfl⟩, by rw [isClanWrap_renderLeft]; exact hd⟩
    rw [e]
    cases z <;> cases c1 <;> decide

/-- The patch of `syncClanButton` against a full rebuild, for a group rendered with the
zone flag `sz` of the persisted zone: the result is the rendering of
`buildLeftButtons(isSpecialZone(persisted zone), hasClan())`, with what follows from it
for the clan entry, the button texts and the disabled flags. -/
theorem syncClanButton_of_zone (h : Host) (w : Script) (sz c0 clanChanged : Bool)
    (hsz : sz = isSpecialZone (GM_getValue w.store .tradeZone (.prim .null))) :
    syncClanButton h w clanChanged (populateLeftButtons h (buildLeftButtons sz c0)) =
      populateLeftButtons h (buildLeftButtons
        (isSpecialZone (GM_getValue w.store .tradeZone (.prim .null))) (hasClan w)) ∧
    ((∃ e ∈ syncClanButton h w clanChanged (populateLeftButtons h (buildLeftButtons sz c0)),
      isClanWrap e = true) ↔ hasClan w = true) ∧
    (syncClanButton h w clanChanged
      (populateLeftButtons h (buildLeftButtons sz c0))).countP isClanWrap ≤ 1 ∧
    (hasClan w = true → ∃ pre st cl post,
      syncClanButton h w clanChanged (populateLeftButtons h (buildLeftButtons sz c0)) =
        pre ++ st :: cl :: post ∧
      st.text = "STORAGE".toList ∧ isClanWrap st = false ∧
      cl.text = "CLAN".toList ∧ isClanWrap cl = true) ∧
    (syncClanButton h w clanChanged
      (populateLeftButtons h (buildLeftButtons sz c0))).map (fun e => (e.text, e.disabled)) =
      (buildLeftButtons (isSpecialZone (GM_getValue w.store .tradeZone (.prim .null)))
        (hasClan w)).map
        (fun b => (if b.isCity then "CITY›".toList else b.label, b.isDisabled)) := by
  have key : syncClanButton h w clanChanged (populateLeftButtons h (buildLeftButtons sz c0)) =
      populateLeftButtons h (buildLeftButtons
        (isSpecialZone (GM_getValue w.store .tradeZone (.prim .null))) (hasClan w)) := by
    rw [syncClanButton_populate, ← hsz, syncTable_rebuild]
  rw [key, ← hsz]
  refine ⟨rfl, (populateLeft_clan_count h sz (hasClan w)).2,
    (populateLeft_clan_count h sz (hasClan w)).1, ?_, ?_⟩
  · intro hc
    rw [hc]
    refine ⟨populateLeftButtons h [Btn.link "OUTPOST" "index.php",
        Btn.link "MARKETPLACE" "index.php?page=35", Btn.link "BANK" "index.php?page=15"],
      renderLeft h (Btn.link "STORAGE" "index.php?page=50"),
      renderLeft h ⟨"CLAN".toList, none, some (!sz), true, false, false, false, none, false,
        false⟩,
      populateLeftButtons h [Btn.gated "THE YARD" "index.php?page=24" (!sz),
        Btn.link "CRAFTING" "index.php?page=59",
        Btn.gated "VENDOR" "index.php?page=84" (!sz),
        ⟨"CITY".toList, none, none, false, true, false, false, none, false, false⟩],
      rfl, rfl, ?_, rfl, ?_⟩
    · rw [isClanWrap_renderLeft]; rfl
    · rw [isClanWrap_renderLeft]
  · cases sz <;> cases hasClan w <;> rfl

theorem resolveTradeZone_persisted (h : Host) (w : Script) :
    (resolveTradeZone h w).2 =
      GM_getValue (resolveTradeZone h w).1.store .tradeZone (.prim .null) := by
  cases ht : (nullishCoalesce h.statsTradezone h.tradezone).truthy <;>
    simp [resolveTradeZone, ht, GM_getValue, GM_setValue, Store.slot]

theorem fetchClanData_tradeZone (h : Host) (html : JSString) (w : Script) :
    GM_getValue (fetchClanData h html w).1.store .tradeZone (.prim .null) =
      GM_getValue w.store .tradeZone (.prim .null) := rfl

/-- C20: on every page load (any host page, any state before `init`, any response body)
and for either value of `clanChanged`: the left group is rendered by `init` from
`buildLeftButtons`, with at most one clan entry; after the refresh, the group left by
`syncClanButton(clanChanged)` is the rendering of the full rebuild
`buildLeftButtons(isSpecialZone(persisted zone), hasClan())`. It has a clan entry if and
only if `hasClan()` holds, at most one clan entry, the clan entry directly after STORAGE,
and the button texts and disabled flags of the rebuild. The same holds for any group
rendered from `buildLeftButtons(sz, c0)` when `sz` is the flag of the persisted zone. -/
theorem syncClanButton_rebuild (h : Host) (w₀ : Script) (html : JSString)
    (clanChanged : Bool) :
    (populateLeftButtons h (initModel h w₀).2.1).countP isClanWrap ≤ 1 ∧
    syncClanButton h (fetchClanData h html (initModel h w₀).1).1 clanChanged
        (populateLeftButtons h (initModel h w₀).2.1) =
      populateLeftButtons h (buildLeftButtons
        (isSpecialZone (GM_getValue (fetchClanData h html (initModel h w₀).1).1.store
          .tradeZone (.prim .null)))
        (hasClan (fetchClanData h html (initModel h w₀).1).1)) ∧
    ((∃ e ∈ syncClanButton h (fetchClanData h html (initModel h w₀).1).1 clanChanged
        (populateLeftButtons h (initModel h w₀).2.1), isClanWrap e = true) ↔
      hasClan (fetchClanData h html (initModel h w₀).1).1 = true) ∧
    (syncClanButton h (fetchClanData h html (initModel h w₀).1).1 clanChanged
      (populateLeftButtons h (initModel h w₀).2.1)).countP isClanWrap ≤ 1 ∧
    (hasClan (fetchClanData h html (initModel h w₀).1).1 = true → ∃ pre st cl post,
      syncClanButton h (fetchClanData h html (initModel h w₀).1).1 clanChanged
        (populateLeftButtons h (initModel h w₀).2.1) = pre ++ st :: cl :: post ∧
      st.text = "STORAGE".toList ∧ isClanWrap st = false ∧
      cl.text = "CLAN".toList ∧ isClanWrap cl = true) ∧
    (syncClanButton h (fetchClanData h html (initModel h w₀).1).1 clanChanged
      (populateLeftButtons h (initModel h w₀).2.1)).map (fun e => (e.text, e.disabled)) =
      (buildLeftButtons
        (isSpecialZone (GM_getValue (fetchClanData h html (initModel h w₀).1).1.store
          .tradeZone (.prim .null)))
        (hasClan (fetchClanData h html (initModel h w₀).1).1)).map
        (fun b => (if b.isCity then "CITY›".toList else b.label, b.isDisabled)) ∧
    (∀ (w : Script) (sz c0 : Bool),
      sz = isSpecialZone (GM_getValue w.store .tradeZone (.prim .null)) →
      syncClanButton h w clanChanged (populateLeftButtons h (buildLeftButtons sz c0)) =
        populateLeftButtons h (buildLeftButtons sz (hasClan w))) := by
  have hsz : isSpecialZone (resolveTradeZone h (loadCachedClan h w₀)).2 =
      isSpecialZone (GM_getValue (fetchClanData h html (initModel h w₀).1).1.store
        .tradeZone (.prim .null)) := by
    rw [fetchClanData_tradeZone, resolveTradeZone_persisted]
    rfl
  have hm : (initModel h w₀).2.1 =
      buildLeftButtons (isSpecialZone (resolveTradeZone h (loadCachedClan h w₀)).2)
        (hasClan (resolveTradeZone h (loadCachedClan h w₀)).1) := rfl
  rw [hm]
  obtain ⟨k1, k2, k3, k4, k5⟩ := syncClanButton_of_zone h
    (fetchClanData h html (initModel h w₀).1).1 _
    (hasClan (resolveTradeZone h (loadCachedClan h w₀)).1) clanChanged hsz
  refine ⟨(populateLeft_clan_count h _ _).1, k1, k2, k3, k4, k5, ?_⟩
  intro w sz c0 hz
  rw [(syncClanButton_of_zone h w sz c0 clanChanged hz).1, ← hz]

/-- A run of the patch: persisted zone `'21'`, a group rendered without clan entry, a
clan found by the refresh; the CLAN entry is inserted, enabled, after STORAGE. -/
theorem syncClanButton_sample :
    (syncClanButton marketHost
        ⟨⟨some (.prim (.str "21".toList)), none, none⟩, .str "7".toList, .str "Foo".toList⟩
        true (populateLeftButtons marketHost (buildLeftButtons true false))).map
      (fun e => (e.text, e.disabled)) =
    [("OUTPOST".toList, false), ("MARKETPLACE".toList, false), ("BANK".toList, false),
     ("STORAGE".toList, false), ("CLAN".toList, false), ("THE YARD".toList, false),
     ("CRAFTING".toList, false), ("VENDOR".toList, false), ("CITY›".toList, false)] := by
  decide

/-! ## Guards of `init` -/

/-- On a page that `isLoginPage` recognises, `init` only returns: nothing but the call
counter changes. -/
theorem init_login_page (computed : Node → JSString × JSString × JSString) (h : Host)
    (d : Doc) (s : PageRun) (hl : isLoginPage d = true) :
    init computed h d s = { s with initRuns := s.initRuns + 1 } := by
  unfold init
  cases d.hasSidebar <;> simp [hl]

/-- The pages `isLoginPage` recognises: first `page` parameter `1`, or first `action`
parameter `login`. -/
theorem isLoginPage_iff (d : Doc) :
    isLoginPage d = true ↔
      (searchGet d.params "page".toList = some "1".toList ∨
        searchGet d.params "action".toList = some "login".toList) := by
  simp [isLoginPage]

/-- C21, at the failing input: a logout page, query `action=logout`, with `#sidebar` and
the original navigation in the document and a fresh trade zone `'21'`. `isLoginPage` is
false there, and `init` does its full work: it mounts a bar, appends its two style
elements and writes the zone to the store. -/
theorem init_logout_page :
    isLoginPage ⟨true, [("action".toList, "logout".toList)]⟩ = false ∧
    (init (fun _ => ([], [], []))
      ⟨some ⟨.str "9".toList, .str "21".toList, .undefined⟩,
        BASE_URL ++ "index.php?action=logout".toList, none⟩
      ⟨true, [("action".toList, "logout".toList)]⟩
      (PageRun.load (Script.start ⟨none, none, none⟩)
        (some ⟨⟨"outpostnavigationheaders".toList, "DIV".toList, false, ⟨[], none⟩⟩,
          [⟨[], "BODY".toList, true, ⟨[], none⟩⟩]⟩))).bars.length = 1 ∧
    (init (fun _ => ([], [], []))
      ⟨some ⟨.str "9".toList, .str "21".toList, .undefined⟩,
        BASE_URL ++ "index.php?action=logout".toList, none⟩
      ⟨true, [("action".toList, "logout".toList)]⟩
      (PageRun.load (Script.start ⟨none, none, none⟩)
        (some ⟨⟨"outpostnavigationheaders".toList, "DIV".toList, false, ⟨[], none⟩⟩,
          [⟨[], "BODY".toList, true, ⟨[], none⟩⟩]⟩))).styles = 2 ∧
    (init (fun _ => ([], [], []))
      ⟨some ⟨.str "9".toList, .str "21".toList, .undefined⟩,
        BASE_URL ++ "index.php?action=logout".toList, none⟩
      ⟨true, [("action".toList, "logout".toList)]⟩
      (PageRun.load (Script.start ⟨none, none, none⟩)
        (some ⟨⟨"outpostnavigationheaders".toList, "DIV".toList, false, ⟨[], none⟩⟩,
          [⟨[], "BODY".toList, true, ⟨[], none⟩⟩]⟩))).page.script.store =
      ⟨some (.prim (.str "21".toList)), none, none⟩ := by
  refine ⟨by decide, by decide, by decide, by decide⟩

/-! ## Trade zone: returned value and persisted value -/

/-- C22: for every store and host fields, the value `resolveTradeZone` returns is the
value read back from `tradeZone` after the call with default `null` (so the read in
`syncClanButton` sees the zone `init` used), and a second call with the same host fields
returns the same value and leaves the store as the first call left it. -/
theorem resolveTradeZone_stable (h : Host) (w : Script) :
    (resolveTradeZone h w).2 =
      GM_getValue (resolveTradeZone h w).1.store .tradeZone (.prim .null) ∧
    (resolveTradeZone h (resolveTradeZone h w).1).2 = (resolveTradeZone h w).2 ∧
    (resolveTradeZone h (resolveTradeZone h w).1).1 = (resolveTradeZone h w).1 := by
  refine ⟨resolveTradeZone_persisted h w, ?_, ?_⟩ <;>
  cases ht : (nullishCoalesce h.statsTradezone h.tradezone).truthy <;>
    simp [resolveTradeZone, ht, GM_getValue, GM_setValue, Store.slot]

/-! ## Disabled and active -/

theorem renderLeft_disabled_not_active (h : Host) (b : Btn)
    (hd : (renderLeft h b).disabled = true) : (renderLeft h b).active = false := by
  unfold renderLeft at hd ⊢
  cases hc : b.hasClanDropdown with
  | true =>
    simp only [hc, if_true, buildClanWrap] at hd ⊢
    simp [hd, Elem.active]
  | false =>
    cases hy : b.isCity with
    | true =>
      simp only [hc, hy, if_true, Bool.false_eq_true, if_false, buildCityButton] at hd
      exact absurd hd (by decide)
    | false =>
      simp only [hc, hy, Bool.false_eq_true, if_false, makeAnchor, Bool.or_false] at hd ⊢
      simp [hd, Elem.active]

/-- C23: for every location and every descriptor, an entry rendered by
`populateLeftButtons` with its button disabled carries neither `dfbm-active` nor
`dfbm-clan-active`; so for every zone, no disabled entry of the left table (THE YARD,
VENDOR, CLAN) is rendered active, whatever the current path. -/
theorem disabled_never_active (h : Host) (z : JSVal) (inClan : Bool) :
    (∀ b : Btn, (renderLeft h b).disabled = true → (renderLeft h b).active = false) ∧
    (∀ b ∈ buildLeftButtons (isSpecialZone z) inClan, b.isDisabled = true →
      (renderLeft h b).disabled = true ∧ (renderLeft h b).active = false) ∧
    (∀ e ∈ populateLeftButtons h (buildLeftButtons (isSpecialZone z) inClan),
      ¬ (e.disabled = true ∧ e.active = true)) := by
  refine ⟨fun b => renderLeft_disabled_not_active h b, ?_, ?_⟩
  · intro b hb hd
    have hc := buildLeftButtons_disabled_not_city _ inClan b hb hd
    have h1 : (renderLeft h b).disabled = true := by rw [renderLeft_disabled h b hc, hd]
    exact ⟨h1, renderLeft_disabled_not_active h b h1⟩
  · intro e he
    obtain ⟨b, _, rfl⟩ := List.mem_map.mp he
    rintro ⟨h1, h2⟩
    rw [renderLeft_disabled_not_active h b h1] at h2
    exact Bool.noConfusion h2

/-- On the page of THE YARD with zone `'5'`: the entry is disabled and not active, and
with zone `'21'` it is active. -/
theorem yard_page_sample :
    (renderLeft ⟨none, BASE_URL ++ "index.php?page=24".toList, none⟩
      (Btn.gated "THE YARD" "index.php?page=24" true)).active = false ∧
    (renderLeft ⟨none, BASE_URL ++ "index.php?page=24".toList, none⟩
      (Btn.gated "THE YARD" "index.php?page=24" false)).active = true := by
  decide

/-! ## At most one active entry -/

theorem isActive_plain (h : Host) (c : JSString) (hc : c ∈ plainTargets) :
    isActive h (some c) = (getBasePath h == c) := by
  have hall : ∀ c ∈ plainTargets,
      c.isEmpty = false ∧ (c == "index.php".toList) = false ∧
        includes c "action=".toList = false := by decide
  obtain ⟨h1, h2, h3⟩ := hall c hc
  simp only [isActive, h1, h2, h3, Bool.false_eq_true, if_false]

theorem isActive_plain_off (h : Host) (c : JSString) (hc : c ∈ plainTargets)
    (hS : getBasePath h ∉
      [[], "/".toList, "index.php".toList, "index.php?".toList] ++ plainTargets) :
    isActive h (some c) = false := by
  rw [isActive_plain h c hc]
  apply beq_false_of_ne
  intro e
  exact hS (List.mem_append_right _ (e ▸ hc))

theorem isActive_home_off (h : Host)
    (hS : getBasePath h ∉
      [[], "/".toList, "index.php".toList, "index.php?".toList] ++ plainTargets) :
    isActive h (some "index.php".toList) = false := by
  have e : isActive h (some "index.php".toList) = isHomePage (getBasePath h) := by
    simp [isActive]
  rw [e]
  cases hv : isHomePage (getBasePath h) with
  | false => rfl
  | true => exact absurd (List.mem_append_left _ ((isHomePage_iff _).mp hv)) hS

set_option maxRecDepth 100000 in
theorem active_count_on_tables :
    ∀ p ∈ [[], "/".toList, "index.php".toList, "index.php?".toList] ++ plainTargets,
      ∀ sz c : Bool,
        ((populateLeftButtons ⟨none, BASE_URL ++ p, none⟩ (buildLeftButtons sz c) ++
          populateRightButtons ⟨none, BASE_URL ++ p, none⟩
            (buildRightButtons none)).countP Elem.active ≤ 1) := by
  decide

theorem active_count_off_tables (h : Host) (sz c : Bool)
    (hS : getBasePath h ∉
      [[], "/".toList, "index.php".toList, "index.php?".toList] ++ plainTargets) :
    (populateLeftButtons h (buildLeftButtons sz c) ++
      populateRightButtons h (buildRightButtons none)).countP Elem.active ≤ 1 := by
  have h0 := isActive_home_off h hS
  have h1 := isActive_plain_off h "index.php?page=35".toList (by decide) hS
  have h2 := isActive_plain_off h "index.php?page=15".toList (by decide) hS
  have h3 := isActive_plain_off h "index.php?page=50".toList (by decide) hS
  have h4 := isActive_plain_off h "index.php?page=89".toList (by decide) hS
  have h5 := isActive_plain_off h "index.php?page=93".toList (by decide) hS
  have h6 := isActive_plain_off h "index.php?page=24".toList (by decide) hS
  have h7 := isActive_plain_off h "index.php?page=59".toList (by decide) hS
  have h8 := isActive_plain_off h "index.php?page=84".toList (by decide) hS
  have h9 := isActive_plain_off h "index.php?page=28".toList (by decide) hS
  have h10 := isActive_plain_off h "index.php?page=53".toList (by decide) hS
  rcases Bool.eq_false_or_eq_true (isActive h (some "index.php?action=forum".toList))
    with hf | hf <;>
  cases sz <;> cases c <;>
    simp only [populateLeftButtons, populateRightButtons, buildLeftButtons, buildRightButtons,
      Btn.link, Btn.gated, Btn.iconLink, List.map, List.cons_append, List.nil_append,
      List.append_nil, renderLeft, renderRight, buildClanWrap, CLAN_LINKS, List.any,
      h0, h1, h2, h3, h4, h5, h6, h7, h8, h9, h10, hf, Bool.false_eq_true, if_false, if_true,
      Bool.not_true, Bool.not_false, Bool.and_false, Bool.false_and, Bool.and_true,
      Bool.or_false, Bool.false_or] <;>
    decide

/-- C24: for every location (hence every current path), every zone, every clan state and
every logout href, at most one element of the rendered bar, left and right groups
together, is active (carries `dfbm-active`, or `dfbm-clan-active` for the clan
entry). -/
theorem at_most_one_active (h : Host) (z : JSVal) (w : Script) (lo : Option JSString) :
    (populateLeftButtons h (buildLeftButtons (isSpecialZone z) (hasClan w)) ++
      populateRightButtons h (buildRightButtons lo)).countP Elem.active ≤ 1 := by
  rw [populateRight_logout]
  by_cases hS : getBasePath h ∈
      [[], "/".toList, "index.php".toList, "index.php?".toList] ++ plainTargets
  · have e : getBasePath h = getBasePath ⟨none, BASE_URL ++ getBasePath h, none⟩ := by
      simp [getBasePath, replaceFirst_append]
    rw [populateLeft_congr h _ e, populateRight_congr h _ e]
    exact active_count_on_tables _ hS _ _
  · exact active_count_off_tables h _ _ hS

/-- On the forum page the one active entry is FORUM. -/
theorem forum_page_sample :
    ((populateLeftButtons ⟨none, BASE_URL ++ "index.php?action=forum".toList, none⟩
        (buildLeftButtons true true) ++
      populateRightButtons ⟨none, BASE_URL ++ "index.php?action=forum".toList, none⟩
        (buildRightButtons none)).filter Elem.active).map (fun e => e.text) =
      ["FORUM".toList] := by
  decide

/-! ## Clan cache: round trip and no invalidation -/

/-- The clan id and name are never `undefined` or `null`: they start as strings and are
assigned only from `x ?? default` and from the refresh. -/
theorem clan_never_nullish (h : Host) (html : JSString) (w : Script)
    (hi : w.clanId.nullish = false) (hn : w.clanName.nullish = false) :
    (Script.start w.store).clanId.nullish = false ∧
    (Script.start w.store).clanName.nullish = false ∧
    (loadCachedClan h w).clanId.nullish = false ∧
    (loadCachedClan h w).clanName.nullish = false ∧
    (fetchClanData h html w).1.clanId.nullish = false ∧
    (fetchClanData h html w).1.clanName.nullish = false := by
  have hc : ∀ a b : JSPrim, b.nullish = false → (nullishCoalesce a b).nullish = false := by
    intro a b hb
    unfold nullishCoalesce
    cases ha : a.nullish <;> simp [ha, hb]
  refine ⟨rfl, rfl, ?_, ?_, rfl, rfl⟩
  · unfold loadCachedClan
    simp only []
    split
    · exact hi
    · split
      · exact hi
      · exact hc _ _ rfl
  · unfold loadCachedClan
    simp only []
    split
    · exact hn
    · split
      · exact hn
      · exact hc _ _ rfl

/-- C25: for every clan id and clan name (values that are not `undefined` or `null`, as
the script's always are) and every current user id, available or not: after
`saveClanCache`, a `loadCachedClan` under the same host page that starts from any
in-memory clan state, in particular from the start state `'-1'` / `''` of the next page
load, restores that id and that name from the store and leaves the store, with the
record `{ id, name, userId }` under `dfbm_clan`, as `saveClanCache` left it. -/
theorem clan_cache_round_trip (h : Host) (w : Script) (i₀ n₀ : JSPrim)
    (hi : w.clanId.nullish = false) (hn : w.clanName.nullish = false) :
    (loadCachedClan h ⟨(saveClanCache h w).store, i₀, n₀⟩).clanId = w.clanId ∧
    (loadCachedClan h ⟨(saveClanCache h w).store, i₀, n₀⟩).clanName = w.clanName ∧
    (loadCachedClan h ⟨(saveClanCache h w).store, i₀, n₀⟩).store =
      (saveClanCache h w).store ∧
    (saveClanCache h w).store.dfbm_clan =
      some (.clanRec w.clanId w.clanName (nullishCoalesce h.idMember .null)) ∧
    (loadCachedClan h (Script.start (saveClanCache h w).store)).clanId = w.clanId ∧
    (loadCachedClan h (Script.start (saveClanCache h w).store)).clanName = w.clanName := by
  have hu : (h.idMember.truthy && (nullishCoalesce h.idMember .null).truthy &&
      (nullishCoalesce h.idMember .null != h.idMember)) = false := by
    unfold nullishCoalesce
    cases hv : h.idMember <;> simp [JSPrim.nullish, JSPrim.truthy]
  have hk : ∀ a b : JSPrim, a.nullish = false → nullishCoalesce a b = a := by
    intro a b ha
    simp [nullishCoalesce, ha]
  have hl : ∀ a b : JSPrim, loadCachedClan h ⟨(saveClanCache h w).store, a, b⟩ =
      ⟨(saveClanCache h w).store, w.clanId, w.clanName⟩ := by
    intro a b
    simp only [loadCachedClan, saveClanCache, GM_getValue, GM_setValue, Store.slot,
      Option.getD_some, JSVal.truthy, Bool.not_true, Bool.false_eq_true, if_false,
      JSVal.userId, JSVal.id, JSVal.name, hu, hk _ _ hi, hk _ _ hn]
  have hs : loadCachedClan h (Script.start (saveClanCache h w).store) =
      ⟨(saveClanCache h w).store, w.clanId, w.clanName⟩ := hl _ _
  rw [hl, hs]
  exact ⟨rfl, rfl, rfl, rfl, rfl, rfl⟩

/-- Witness for C25: clan `7` / `Foo` saved for user `"B"`, then loaded on the next page
from the start state. -/
theorem clan_cache_round_trip_witness :
    (loadCachedClan ⟨some ⟨.str "B".toList, .undefined, .undefined⟩, [], none⟩
      (Script.start (saveClanCache ⟨some ⟨.str "B".toList, .undefined, .undefined⟩, [], none⟩
        ⟨⟨none, none, none⟩, .str "7".toList, .str "Foo".toList⟩).store)).clanId
      = .str "7".toList ∧
    (loadCachedClan ⟨some ⟨.str "B".toList, .undefined, .undefined⟩, [], none⟩
      (Script.start (saveClanCache ⟨some ⟨.str "B".toList, .undefined, .undefined⟩, [], none⟩
        ⟨⟨none, none, none⟩, .str "7".toList, .str "Foo".toList⟩).store)).clanName
      = .str "Foo".toList :=
  ⟨(clan_cache_round_trip ⟨some ⟨.str "B".toList, .undefined, .undefined⟩, [], none⟩
      ⟨⟨none, none, none⟩, .str "7".toList, .str "Foo".toList⟩ .null .null rfl rfl).2.2.2.2.1,
   (clan_cache_round_trip ⟨some ⟨.str "B".toList, .undefined, .undefined⟩, [], none⟩
      ⟨⟨none, none, none⟩, .str "7".toList, .str "Foo".toList⟩ .null .null rfl rfl).2.2.2.2.2⟩

/-- The load of the witness evaluated: from the start state, the saved clan comes back. -/
theorem clan_cache_round_trip_sample :
    loadCachedClan ⟨some ⟨.str "B".toList, .undefined, .undefined⟩, [], none⟩
      (Script.start (saveClanCache ⟨some ⟨.str "B".toList, .undefined, .undefined⟩, [], none⟩
        ⟨⟨none, none, none⟩, .str "7".toList, .str "Foo".toList⟩).store) =
      ⟨⟨none, some (.clanRec (.str "7".toList) (.str "Foo".toList) (.str "B".toList)), none⟩,
        .str "7".toList, .str "Foo".toList⟩ := by
  decide

/-- C27: when the current user id is unavailable (falsy: absent, `null`, empty) or the
persisted record has no owner id (falsy `userId`), `loadCachedClan` does not invalidate:
for every record `{ id, name, userId }` the store is unchanged and the clan state is
`id ?? '-1'`, `name ?? ''`, whatever `userId` is. -/
theorem loadCachedClan_keeps (h : Host) (w : Script) (i n owner : JSPrim)
    (hrec : w.store.dfbm_clan = some (.clanRec i n owner))
    (hu : h.idMember.truthy = false ∨ owner.truthy = false) :
    (loadCachedClan h w).store = w.store ∧
    (loadCachedClan h w).clanId = nullishCoalesce i (.str "-1".toList) ∧
    (loadCachedClan h w).clanName = nullishCoalesce n (.str []) := by
  have hc : (h.idMember.truthy && owner.truthy && (owner != h.idMember)) = false := by
    rcases hu with e | e <;> simp [e]
  have hl : loadCachedClan h w =
      { w with clanId := nullishCoalesce i (.str CLAN_ID_DEFAULT),
               clanName := nullishCoalesce n (.str []) } := by
    simp only [loadCachedClan, GM_getValue, Store.slot, hrec, Option.getD_some, JSVal.truthy,
      Bool.not_true, Bool.false_eq_true, if_false, JSVal.userId, JSVal.id, JSVal.name, hc]
  rw [hl]
  exact ⟨rfl, rfl, rfl⟩

/-- Witness for C27: a record owned by `"A"` with a missing name, loaded while no user id
is available. -/
theorem loadCachedClan_keeps_witness :
    (loadCachedClan ⟨none, [], none⟩
      ⟨⟨none, some (.clanRec (.str "7".toList) .undefined (.str "A".toList)), none⟩,
        .str "-1".toList, .str []⟩).store =
      ⟨none, some (.clanRec (.str "7".toList) .undefined (.str "A".toList)), none⟩ ∧
    (loadCachedClan ⟨none, [], none⟩
      ⟨⟨none, some (.clanRec (.str "7".toList) .undefined (.str "A".toList)), none⟩,
        .str "-1".toList, .str []⟩).clanId =
      nullishCoalesce (.str "7".toList) (.str "-1".toList) ∧
    (loadCachedClan ⟨none, [], none⟩
      ⟨⟨none, some (.clanRec (.str "7".toList) .undefined (.str "A".toList)), none⟩,
        .str "-1".toList, .str []⟩).clanName = nullishCoalesce .undefined (.str []) :=
  loadCachedClan_keeps ⟨none, [], none⟩
    ⟨⟨none, some (.clanRec (.str "7".toList) .undefined (.str "A".toList)), none⟩,
      .str "-1".toList, .str []⟩
    (.str "7".toList) .undefined (.str "A".toList) rfl (Or.inl rfl)

/-! ## Bootstrap: how often `init` runs -/

theorem init_runs (computed : Node → JSString × JSString × JSString) (h : Host) (d : Doc)
    (s : PageRun) : (init computed h d s).initRuns = s.initRuns + 1 := by
  unfold init
  cases d.hasSidebar <;> cases isLoginPage d <;> cases s.nav <;> rfl

theorem refreshClan_runs (h : Host) (html : JSString) (s : PageRun) :
    (refreshClan h html s).initRuns = s.initRuns := by
  unfold refreshClan
  cases s.bars <;> rfl

/-- The number of calls of `init` made by the handler: two when both waits resolve and
the fetch is rejected, one in every other case. -/
theorem onDOMContentLoaded_runs (computed : Node → JSString × JSString × JSString)
    (h : Host) (d : Doc) (sidebarFound navFound : Bool) (f : FetchOutcome) (s : PageRun) :
    (onDOMContentLoaded computed h d sidebarFound navFound f s).initRuns =
      s.initRuns +
        (if sidebarFound && navFound && decide (f = .rejected) then 2 else 1) := by
  unfold onDOMContentLoaded
  cases sidebarFound <;> cases navFound <;> cases f <;>
    simp [init_runs, refreshClan_runs]

/-- C26, at the failing input: both waits resolve, the page is an ordinary game page with
`#sidebar` and the original navigation, and the fetch is rejected. The handler calls
`init` twice, once in the `try` block and once in the `catch` block, and two bars are
mounted. With the fetch resolved, on the same page, `init` runs once and one bar is
mounted. -/
theorem bootstrap_fetch_rejected :
    (onDOMContentLoaded (fun _ => ([], [], [])) marketHost ⟨true, []⟩ true true .rejected
      (PageRun.load (Script.start ⟨none, none, none⟩)
        (some ⟨⟨"outpostnavigationheaders".toList, "DIV".toList, false, ⟨[], none⟩⟩,
          [⟨[], "BODY".toList, true, ⟨[], none⟩⟩]⟩))).initRuns = 2 ∧
    (onDOMContentLoaded (fun _ => ([], [], [])) marketHost ⟨true, []⟩ true true .rejected
      (PageRun.load (Script.start ⟨none, none, none⟩)
        (some ⟨⟨"outpostnavigationheaders".toList, "DIV".toList, false, ⟨[], none⟩⟩,
          [⟨[], "BODY".toList, true, ⟨[], none⟩⟩]⟩))).bars.length = 2 ∧
    (onDOMContentLoaded (fun _ => ([], [], [])) marketHost ⟨true, []⟩ true true
      (.resolved [])
      (PageRun.load (Script.start ⟨none, none, none⟩)
        (some ⟨⟨"outpostnavigationheaders".toList, "DIV".toList, false, ⟨[], none⟩⟩,
          [⟨[], "BODY".toList, true, ⟨[], none⟩⟩]⟩))).initRuns = 1 ∧
    (onDOMContentLoaded (fun _ => ([], [], [])) marketHost ⟨true, []⟩ true true
      (.resolved [])
      (PageRun.load (Script.start ⟨none, none, none⟩)
        (some ⟨⟨"outpostnavigationheaders".toList, "DIV".toList, false, ⟨[], none⟩⟩,
          [⟨[], "BODY".toList, true, ⟨[], none⟩⟩]⟩))).bars.length = 1 := by
  refine ⟨by decide, by decide, by decide, by decide⟩

/-! ## The two versions of the trade-zone resolution -/

/-- The two versions agree whenever the first host field is nullish or truthy. -/
theorem resolveTradeZone_versions_agree (h : Host) (w : Script)
    (ha : h.statsTradezone.nullish = true ∨ h.statsTradezone.truthy = true) :
    resolveTradeZone h w = resolveTradeZoneV100 h w := by
  unfold resolveTradeZone resolveTradeZoneV100 nullishCoalesce
  rcases ha with e | e
  · have e2 : h.statsTradezone.truthy = false := by
      cases hv : h.statsTradezone <;> simp_all [JSPrim.nullish, JSPrim.truthy]
    simp only [e, e2, if_true, Bool.false_eq_true, if_false]
  · have e2 : h.statsTradezone.nullish = false := by
      cases hv : h.statsTradezone <;> simp_all [JSPrim.nullish, JSPrim.truthy]
    simp only [e, e2, if_true, Bool.false_eq_true, if_false]

/-- The two versions agree also whenever the second host field is falsy. -/
theorem resolveTradeZone_versions_agree_second (h : Host) (w : Script)
    (hb : h.tradezone.truthy = false) :
    resolveTradeZone h w = resolveTradeZoneV100 h w := by
  cases ht : h.statsTradezone.truthy with
  | true => exact resolveTradeZone_versions_agree h w (Or.inr ht)
  | false =>
    have hf : (nullishCoalesce h.statsTradezone h.tradezone).truthy = false := by
      unfold nullishCoalesce
      cases hn : h.statsTradezone.nullish <;> simp [ht, hb]
    simp only [resolveTradeZone, resolveTradeZoneV100, hf, ht, hb, Bool.false_eq_true,
      if_false]

/-- C28, at a failing input: host fields `DFSTATS_df_tradezone = 0` and
`df_tradezone = '22'`, nothing persisted. Version 1.0.1 returns `null` and leaves the
store empty; version 1.0.0 returns `'22'` and persists it. -/
theorem resolveTradeZone_versions_differ :
    resolveTradeZone ⟨some ⟨.undefined, .num 0, .str "22".toList⟩, [], none⟩
        (Script.start ⟨none, none, none⟩) =
      (Script.start ⟨none, none, none⟩, .prim .null) ∧
    resolveTradeZoneV100 ⟨some ⟨.undefined, .num 0, .str "22".toList⟩, [], none⟩
        (Script.start ⟨none, none, none⟩) =
      (Script.start ⟨some (.prim (.str "22".toList)), none, none⟩,
        .prim (.str "22".toList)) := by
  decide

end DFExtraButtons
